import Mathlib

set_option maxRecDepth 10000

/-!
Verification development for the `jsontoschdoc.py` schematic-record encoder.

The Python program converts a list of loosely-typed records (JSON objects)
into the byte encoding of an Altium `FileHeader` stream.  This file gives a
shallow embedding of the program: records are association lists from field
names to raw values, each registered record handler is a function from a
record to the bytes it writes to the stream (plus an optional uncaught
Python exception), and the driver loop of `create_fileheader_stream` is a
function over the record list.  Machine-level details (Python `int()`
conversion, `str.encode`, f-string interpolation of `bytes` values via
their `repr`, `struct.pack` with format `<I`) are modelled explicitly on
`Nat`/`Int` byte lists.

Modelling notes:
* JSON float values are outside the modelled input domain; record values
  cover strings, integers and booleans.  The only registered handler that
  performs a float conversion (`handle_elliptical_arc`, record 11) is
  modelled so that the conversion succeeds exactly on integral literals
  (rendered with a trailing ".0" as Python does); non-integral numeric
  strings are mapped to an error.  No theorem below depends on that
  rendering.
* Writing to the OLE container and logging are external side effects; the
  driver model records the bytes written to the stream and the warning
  conditions the driver logs.
-/

namespace SchDoc

/-- Raw value of a record field as supplied by the JSON input: string,
integer or boolean. -/
inductive Value where
  | str (s : String)
  | int (n : Int)
  | bool (b : Bool)
deriving DecidableEq, Repr

/-- Python exception kinds that the encoder can raise and leave uncaught. -/
inductive PyErr where
  | keyError
  | valueError
  | attributeError
  | unicodeEncodeError
  | structError
deriving DecidableEq, Repr

/-- A record: mapping from field names to raw values (association list,
first binding wins, mirroring a Python dict with unique keys). -/
abbrev Record := List (String × Value)

/-- Python `record[k]` / `record.get(k)`: first binding for `k`. -/
def Record.find (r : Record) (k : String) : Option Value :=
  (List.find? (fun p => p.1 == k) r).map (fun p => p.2)

/-- Python `record.get(k, d)`. -/
def Record.getD (r : Record) (k : String) (d : Value) : Value :=
  (r.find k).getD d

/-- Python `record[k]`, raising `KeyError` when the key is absent. -/
def Record.findE (r : Record) (k : String) : Except PyErr Value :=
  match r.find k with
  | some v => .ok v
  | none => .error .keyError

/-- Python `k in record`. -/
def Record.has (r : Record) (k : String) : Bool :=
  (r.find k).isSome

/-- UTF-8 encoding of one character (Python `str.encode('utf-8')`,
byte values as naturals). -/
def utf8Bytes (c : Char) : List Nat :=
  let n := c.toNat
  if n < 128 then [n]
  else if n < 2048 then [192 + n / 64, 128 + n % 64]
  else if n < 65536 then [224 + n / 4096, 128 + n / 64 % 64, 128 + n % 64]
  else [240 + n / 262144, 128 + n / 4096 % 64, 128 + n / 64 % 64, 128 + n % 64]

/-- UTF-8 bytes of a string; also the value of a Python bytes literal
`b"..."` for ASCII text. -/
def strBytes (s : String) : List Nat :=
  s.data.flatMap utf8Bytes

/-- Python `str.encode('ascii')`: succeeds iff every character is below
128, else `UnicodeEncodeError`. -/
def asciiEncode (s : String) : Except PyErr (List Nat) :=
  if s.data.all (fun c => c.toNat < 128) then .ok (s.data.map Char.toNat)
  else .error .unicodeEncodeError

/-- Characters stripped by Python `int(str)` before parsing. -/
def isPySpace (c : Char) : Bool :=
  c = ' ' || c = Char.ofNat 9 || c = Char.ofNat 10 || c = Char.ofNat 13 ||
  c = Char.ofNat 11 || c = Char.ofNat 12

/-- Value of a nonempty all-digit character list. -/
def digitsVal : List Char → Option Nat
  | [] => none
  | cs => cs.foldl (fun acc c =>
      match acc with
      | none => none
      | some n => if c.isDigit then some (n * 10 + (c.toNat - 48)) else none)
      (some 0)

/-- Python `int(s)` on a string: strip whitespace, optional sign, decimal
digits; anything else raises `ValueError` (modelled as `none`). -/
def pyIntOfStr (s : String) : Option Int :=
  let cs := ((s.data.dropWhile isPySpace).reverse.dropWhile isPySpace).reverse
  match cs with
  | [] => none
  | c :: rest =>
    if c = '+' then (digitsVal rest).map (fun n => (n : Int))
    else if c = '-' then (digitsVal rest).map (fun n => -(n : Int))
    else (digitsVal cs).map (fun n => (n : Int))

/-- Python `int(v)` on a raw record value. -/
def pyInt : Value → Except PyErr Int
  | .int n => .ok n
  | .bool b => .ok (if b then 1 else 0)
  | .str s =>
    match pyIntOfStr s with
    | some n => .ok n
    | none => .error .valueError

/-- Python truthiness of a raw value (`if record.get(k, False):`). -/
def pyTruthy : Value → Bool
  | .str s => !s.isEmpty
  | .int n => n != 0
  | .bool b => b

/-- Lower-case hexadecimal digit. -/
def hexDigit (n : Nat) : Char :=
  if n < 10 then Char.ofNat (48 + n) else Char.ofNat (87 + n)

/-- Escape of one byte inside Python `repr` of a bytes object, given the
quote byte in use. -/
def reprEscape (q : Nat) (b : Nat) : List Char :=
  if b = 92 then [Char.ofNat 92, Char.ofNat 92]
  else if b = q then [Char.ofNat 92, Char.ofNat q]
  else if b = 9 then [Char.ofNat 92, Char.ofNat 116]
  else if b = 10 then [Char.ofNat 92, Char.ofNat 110]
  else if b = 13 then [Char.ofNat 92, Char.ofNat 114]
  else if 32 ≤ b && b ≤ 126 then [Char.ofNat b]
  else [Char.ofNat 92, Char.ofNat 120, hexDigit (b / 16), hexDigit (b % 16)]

/-- Python `repr` of a bytes object, which is what an f-string
interpolates when handed a `bytes` value (`f"{b'a'}"` is `"b'a'"`). -/
def pyBytesRepr (bs : List Nat) : String :=
  let q : Nat := if bs.contains 39 && !(bs.contains 34) then 34 else 39
  ⟨Char.ofNat 98 :: Char.ofNat q :: (bs.flatMap (reprEscape q) ++ [Char.ofNat q])⟩

/-- A value as it stands right before f-string interpolation: either a raw
record value or an already-encoded bytes object. -/
inductive PyVal where
  | v (x : Value)
  | bytes (bs : List Nat)
deriving DecidableEq, Repr

/-- Python `str(x)` / f-string rendering of a raw value. -/
def pyStr : Value → String
  | .str s => s
  | .int n => toString n
  | .bool b => if b then "True" else "False"

/-- F-string rendering of a possibly-encoded value. -/
def pyValStr : PyVal → String
  | .v x => pyStr x
  | .bytes bs => pyBytesRepr bs

/-- Python `v.encode('ascii')` on a raw value: only `str` has `encode`. -/
def encodeAsciiV : Value → Except PyErr (List Nat)
  | .str s => asciiEncode s
  | _ => .error .attributeError

/-- Python `v.encode('utf-8')` on a raw value. -/
def encodeUtf8V : Value → Except PyErr (List Nat)
  | .str s => .ok (strBytes s)
  | _ => .error .attributeError

/-- Python `struct.pack('<I', n)`: 4 little-endian bytes, defined exactly
for 0 ≤ n < 2^32, else `struct.error`. -/
def packU32 (n : Int) : Except PyErr (List Nat) :=
  if 0 ≤ n ∧ n < 4294967296 then
    let m := n.toNat
    .ok [m % 256, m / 256 % 256, m / 65536 % 256, m / 16777216 % 256]
  else .error .structError

/-- Bytes a handler wrote to the stream before returning or raising, plus
the uncaught exception when one was raised. -/
structure HandlerOut where
  bytes : List Nat
  err : Option PyErr
deriving DecidableEq, Repr

/-- Sequence a list of per-field byte computations left to right; the
first exception wins, as in Python statement order. -/
def seqE : List (Except PyErr (List Nat)) → Except PyErr (List (List Nat))
  | [] => .ok []
  | e :: es => do
    let a ← e
    let as ← seqE es
    .ok (a :: as)

/-- Run a handler that builds `b"|RECORD=<n>"` plus field segments in
memory and performs one `stream.write(data + b"\n")` at the end: on any
exception nothing is written. -/
def runSegs (tag : String) (segs : List (Except PyErr (List Nat))) : HandlerOut :=
  match seqE segs with
  | .ok parts => ⟨strBytes tag ++ parts.flatten ++ [10], none⟩
  | .error e => ⟨[], some e⟩

/-- Transform `lambda x: x.encode('ascii')` used by `append_if_present`
callers. -/
def tfEncodeAscii (x : Value) : Except PyErr PyVal :=
  (encodeAsciiV x).map PyVal.bytes

/-- Transform `lambda x: x.encode('utf-8')`. -/
def tfEncodeUtf8 (x : Value) : Except PyErr PyVal :=
  (encodeUtf8V x).map PyVal.bytes

/-- Transform `lambda x: 'T' if x else 'F'` (truthiness test). -/
def tfTruthyTF (x : Value) : Except PyErr PyVal :=
  .ok (.v (.str (if pyTruthy x then "T" else "F")))

/-- Transform `lambda x: 'T' if x == 'T' else 'F'`. -/
def tfEqT (x : Value) : Except PyErr PyVal :=
  .ok (.v (.str (if x = .str "T" then "T" else "F")))

/-- Transform `lambda x: 'T' if x == 'True' else 'F'`. -/
def tfEqTrueStr (x : Value) : Except PyErr PyVal :=
  .ok (.v (.str (if x = .str "True" then "T" else "F")))

/-- Python `int(x)` applied to a transformed value (the `format_string`
branch of `append_if_present`); `int` of a bytes object is a `TypeError`,
modelled as `valueError` generically. -/
def pyValInt : PyVal → Except PyErr Int
  | .v x => pyInt x
  | .bytes _ => .error .valueError

/-- The utility `append_if_present(data, record, key, format_string,
transform, prefix)`: appends `f"|{prefix}{key}={value}".encode('ascii')`
(or the packed form) when the key exists. -/
def append_if_present (data : List (List Nat)) (record : Record) (key : String)
    (format_string : Bool := false)
    (transform : Option (Value → Except PyErr PyVal) := none)
    (pfx : String := "") : Except PyErr (List (List Nat)) :=
  match record.find key with
  | none => .ok data
  | some v0 =>
    match (match transform with
           | none => .ok (PyVal.v v0)
           | some tf => tf v0 : Except PyErr PyVal) with
    | .error e => .error e
    | .ok v =>
      if format_string then
        match pyValInt v with
        | .error e => .error e
        | .ok n =>
          match packU32 n with
          | .error e => .error e
          | .ok p => .ok (data ++ [strBytes ("|" ++ pfx ++ key ++ "=") ++ p])
      else
        match asciiEncode ("|" ++ pfx ++ key ++ "=" ++ pyValStr v) with
        | .error e => .error e
        | .ok bs => .ok (data ++ [bs])

/-- One call to `append_if_present` inside a handler: its key and the
optional arguments it was invoked with. -/
structure AipStep where
  key : String
  format_string : Bool := false
  transform : Option (Value → Except PyErr PyVal) := none
  pfx : String := ""

/-- A sequence of `append_if_present` calls threaded through the `data`
list, mirroring the straight-line statements of a handler. -/
def aipChain (record : Record) (steps : List AipStep)
    (data : List (List Nat)) : Except PyErr (List (List Nat)) :=
  match steps with
  | [] => .ok data
  | s :: ss => do
    let d ← append_if_present data record s.key s.format_string s.transform s.pfx
    aipChain record ss d

/-- Run a handler of the `data = [b"|RECORD=<n>"]` / `append_if_present` /
`stream.write(b''.join(data) + b"\n")` shape. -/
def runAip (tag : String)
    (comp : List (List Nat) → Except PyErr (List (List Nat))) : HandlerOut :=
  match comp [strBytes tag] with
  | .ok d => ⟨d.flatten ++ [10], none⟩
  | .error e => ⟨[], some e⟩

/-- Python `int(record[key])`: `KeyError` when absent, `ValueError` when
unconvertible. -/
def pyIntKey (record : Record) (key : String) : Except PyErr Int := do
  let v ← record.findE key
  pyInt v

/-- Python `int(record.get(key, d))`. -/
def pyIntKeyD (record : Record) (key : String) (d : Value) : Except PyErr Int :=
  pyInt (record.getD key d)

/-- Optional field emitted as `record[key].encode('ascii')` interpolated
into an f-string (so the token value is the bytes `repr`). -/
def optBytesReprSeg (record : Record) (key : String) : Except PyErr (List Nat) :=
  match record.find key with
  | none => .ok []
  | some v => do
    let value ← encodeAsciiV v
    asciiEncode ("|" ++ key ++ "=" ++ pyBytesRepr value)

/-- Handler for record type 0 (`handle_header`): note it emits `|HEADER=`
tokens, never a `|RECORD=0` token, and the two `.encode('utf-8')` results
are interpolated as their bytes `repr`. -/
def handle_header (record : Record) : HandlerOut :=
  match (do
    let header ← encodeUtf8V (record.getD "HEADER"
      (.str "Protel for Windows - Schematic Capture Binary File Version 5.0"))
    let weight ← pyInt (record.getD "WEIGHT" (.int 0))
    let minor_version ← pyInt (record.getD "MINORVERSION" (.int 0))
    let unique_id ← encodeUtf8V (record.getD "UNIQUEID" (.str ""))
    .ok (strBytes ("|HEADER=" ++ pyBytesRepr header ++ "|WEIGHT=" ++ toString weight ++
      "|MINORVERSION=" ++ toString minor_version ++ "|UNIQUEID=" ++ pyBytesRepr unique_id))
    : Except PyErr (List Nat)) with
  | .ok data => ⟨data ++ [10], none⟩
  | .error e => ⟨[], some e⟩

/-- Field segments of `handle_component` (record type 1) in statement
order.  When `COMPONENTDESCRIPTION` is present but its `%UTF8%` override
is absent, `record.get` returns the already-encoded bytes object and
`.encode('utf-8')` on it raises `AttributeError`. -/
def component_segs (record : Record) : List (Except PyErr (List Nat)) :=
  [ (do
      let libref ← encodeAsciiV (record.getD "LIBREFERENCE" (.str ""))
      asciiEncode ("|LIBREFERENCE=" ++ pyBytesRepr libref)),
    (match record.find "COMPONENTDESCRIPTION" with
     | none => .ok []
     | some dv => do
       let description ← encodeAsciiV dv
       let utf8_description ←
         match record.find "%UTF8%COMPONENTDESCRIPTION" with
         | some ov => encodeUtf8V ov
         | none => .error .attributeError
       asciiEncode ("|COMPONENTDESCRIPTION=" ++ pyBytesRepr description ++
         "|%UTF8%COMPONENTDESCRIPTION=" ++ pyBytesRepr utf8_description)),
    (do
      let part_count ← pyIntKeyD record "PARTCOUNT" (.int 1)
      let display_mode_count ← pyIntKeyD record "DISPLAYMODECOUNT" (.int 0)
      let index_in_sheet ← pyIntKeyD record "INDEXINSHEET" (.int (-1))
      let current_part_id ← pyIntKeyD record "CURRENTPARTID" (.int (-1))
      asciiEncode ("|PARTCOUNT=" ++ toString part_count ++
        "|DISPLAYMODECOUNT=" ++ toString display_mode_count ++
        "|INDEXINSHEET=" ++ toString index_in_sheet ++
        "|CURRENTPARTID=" ++ toString current_part_id)),
    (do
      let location_x ← pyIntKeyD record "LOCATION.X" (.int 0)
      let location_y ← pyIntKeyD record "LOCATION.Y" (.int 0)
      asciiEncode ("|LOCATION.X=" ++ toString location_x ++
        "|LOCATION.Y=" ++ toString location_y)),
    (asciiEncode
      ("|ISMIRRORED=" ++ (if pyTruthy (record.getD "ISMIRRORED" (.bool false)) then "T" else "F") ++
       "|PARTIDLOCKED=" ++ (if pyTruthy (record.getD "PARTIDLOCKED" (.bool false)) then "T" else "F") ++
       "|DESIGNATORLOCKED=" ++ (if pyTruthy (record.getD "DESIGNATORLOCKED" (.bool false)) then "T" else "F") ++
       "|PINSMOVEABLE=" ++ (if pyTruthy (record.getD "PINSMOVEABLE" (.bool false)) then "T" else "F"))),
    (do
      let area_color ← pyIntKeyD record "AREACOLOR" (.int 11599871)
      let color ← pyIntKeyD record "COLOR" (.int 128)
      asciiEncode ("|AREACOLOR=" ++ toString area_color ++ "|COLOR=" ++ toString color)) ]
  ++ (["LIBRARYPATH", "SOURCELIBRARYNAME", "SHEETPARTFILENAME", "TARGETFILENAME",
       "UNIQUEID"].map (optBytesReprSeg record))
  ++ (["NOTUSEDBTABLENAME", "DESIGNITEMID", "DATABASETABLENAME",
       "ALIASLIST"].map (optBytesReprSeg record))

/-- Handler for record type 1 (`handle_component`). -/
def handle_component (record : Record) : HandlerOut :=
  runSegs "|RECORD=1" (component_segs record)

/-- Field segments of `handle_pin` (record type 2, the later definition in
the source, which is the one Python keeps).  All "mandatory" fields carry
defaults via `record.get`. -/
def pin_segs (record : Record) : List (Except PyErr (List Nat)) :=
  [ (do
      let owner_index ← pyIntKeyD record "OWNERINDEX" (.int 0)
      let owner_part_id ← pyIntKeyD record "OWNERPARTID" (.int (-1))
      let pin_length ← pyIntKeyD record "PINLENGTH" (.int 0)
      let location_x ← pyIntKeyD record "LOCATION.X" (.int 0)
      let location_y ← pyIntKeyD record "LOCATION.Y" (.int 0)
      let electrical ← pyIntKeyD record "ELECTRICAL" (.int 0)
      asciiEncode ("|OWNERINDEX=" ++ toString owner_index ++
        "|OWNERPARTID=" ++ toString owner_part_id ++
        "|PINLENGTH=" ++ toString pin_length ++
        "|LOCATION.X=" ++ toString location_x ++
        "|LOCATION.Y=" ++ toString location_y ++
        "|ELECTRICAL=" ++ toString electrical)),
    (match record.find "OWNERPARTDISPLAYMODE" with
     | none => .ok []
     | some v => do
       let display_mode ← pyInt v
       asciiEncode ("|OWNERPARTDISPLAYMODE=" ++ toString display_mode)),
    optBytesReprSeg record "DESCRIPTION",
    (do
      let symbol_outer ← pyIntKeyD record "SYMBOL_OUTER" (.int 0)
      let symbol_outer_edge ← pyIntKeyD record "SYMBOL_OUTEREDGE" (.int 0)
      let symbol_inner_edge ← pyIntKeyD record "SYMBOL_INNEREDGE" (.int 0)
      asciiEncode ("|SYMBOL_OUTER=" ++ toString symbol_outer ++
        "|SYMBOL_OUTEREDGE=" ++ toString symbol_outer_edge ++
        "|SYMBOL_INNEREDGE=" ++ toString symbol_inner_edge)),
    (match record.find "NAME" with
     | none => .ok []
     | some nv => do
       let name ← encodeAsciiV nv
       let name_custom_font_id ← pyIntKeyD record "NAME_CUSTOMFONTID" (.int 4)
       let name_custom_position_margin ← pyIntKeyD record "NAME_CUSTOMPOSITION_MARGIN" (.int (-7))
       let pinname_position_conglomerate ← pyIntKeyD record "PINNAME_POSITIONCONGLOMERATE" (.int 0)
       asciiEncode ("|NAME=" ++ pyBytesRepr name ++
         "|NAME_CUSTOMFONTID=" ++ toString name_custom_font_id ++
         "|NAME_CUSTOMPOSITION_MARGIN=" ++ toString name_custom_position_margin ++
         "|PINNAME_POSITIONCONGLOMERATE=" ++ toString pinname_position_conglomerate)),
    (match record.find "DESIGNATOR" with
     | none => .ok []
     | some dv => do
       let designator ← encodeAsciiV dv
       let designator_custom_position_margin ← pyIntKeyD record "DESIGNATOR_CUSTOMPOSITION_MARGIN" (.int 9)
       let pindesignator_position_conglomerate ← pyIntKeyD record "PINDESIGNATOR_POSITIONCONGLOMERATE" (.int 0)
       asciiEncode ("|DESIGNATOR=" ++ pyBytesRepr designator ++
         "|DESIGNATOR_CUSTOMPOSITION_MARGIN=" ++ toString designator_custom_position_margin ++
         "|PINDESIGNATOR_POSITIONCONGLOMERATE=" ++ toString pindesignator_position_conglomerate)),
    optBytesReprSeg record "SWAPIDPIN",
    (match record.find "%UTF8%SWAPIDPART" with
     | none => .ok []
     | some v => do
       let utf8_swapidpart ← encodeUtf8V v
       asciiEncode ("|%UTF8%SWAPIDPART=" ++ pyBytesRepr utf8_swapidpart)) ]

/-- Handler for record type 2 (`handle_pin`). -/
def handle_pin (record : Record) : HandlerOut :=
  runSegs "|RECORD=2" (pin_segs record)

/-- Handler for record type 3 (`handle_ieee_symbol`); `ISNOTACCESIBLE` is
the constant `T`. -/
def handle_ieee_symbol (record : Record) : HandlerOut :=
  runSegs "|RECORD=3"
    [ (do
        let color ← pyIntKeyD record "COLOR" (.int 255)
        let location_x ← pyIntKey record "LOCATION.X"
        let location_y ← pyIntKey record "LOCATION.Y"
        let symbol ← pyIntKey record "SYMBOL"
        let scale_factor ← pyIntKey record "SCALEFACTOR"
        let owner_part_id ← pyIntKey record "OWNERPARTID"
        let owner_part_display_mode ← pyIntKeyD record "OWNERPARTDISPLAYMODE" (.int 0)
        let current_part_id ← pyIntKeyD record "CURRENTPARTID" (.int 0)
        asciiEncode ("|COLOR=" ++ toString color ++
          "|LOCATION.X=" ++ toString location_x ++
          "|LOCATION.Y=" ++ toString location_y ++
          "|SYMBOL=" ++ toString symbol ++
          "|ISNOTACCESIBLE=T" ++
          "|SCALEFACTOR=" ++ toString scale_factor ++
          "|OWNERPARTID=" ++ toString owner_part_id ++
          "|OWNERPARTDISPLAYMODE=" ++ toString owner_part_display_mode ++
          "|CURRENTPARTID=" ++ toString current_part_id)) ]

/-- Handler for record type 4 (`handle_label`); `TEXT` is encoded UTF-8
and interpolated as its bytes `repr`. -/
def handle_label (record : Record) : HandlerOut :=
  runSegs "|RECORD=4"
    [ (do
        let owner_index ← pyIntKey record "OWNERINDEX"
        let is_not_accessible := if record.getD "ISNOTACCESIBLE" (.str "F") = .str "T" then "T" else "F"
        let index_in_sheet ← pyIntKey record "INDEXINSHEET"
        let owner_part_id ← pyIntKey record "OWNERPARTID"
        let location_x ← pyIntKey record "LOCATION.X"
        let location_y ← pyIntKey record "LOCATION.Y"
        let color ← pyIntKeyD record "COLOR" (.int 0)
        let is_mirrored := if record.getD "ISMIRRORED" (.str "F") = .str "T" then "T" else "F"
        let orientation ← pyIntKeyD record "ORIENTATION" (.int 0)
        let justification ← pyIntKeyD record "JUSTIFICATION" (.int 0)
        let font_id ← pyIntKeyD record "FONTID" (.int 1)
        let text ← encodeUtf8V (record.getD "TEXT" (.str ""))
        let graphically_locked := if record.getD "GRAPHICALLYLOCKED" (.str "F") = .str "T" then "T" else "F"
        asciiEncode ("|OWNERINDEX=" ++ toString owner_index ++
          "|ISNOTACCESIBLE=" ++ is_not_accessible ++
          "|INDEXINSHEET=" ++ toString index_in_sheet ++
          "|OWNERPARTID=" ++ toString owner_part_id ++
          "|LOCATION.X=" ++ toString location_x ++
          "|LOCATION.Y=" ++ toString location_y ++
          "|COLOR=" ++ toString color ++
          "|ISMIRRORED=" ++ is_mirrored ++
          "|ORIENTATION=" ++ toString orientation ++
          "|JUSTIFICATION=" ++ toString justification ++
          "|FONTID=" ++ toString font_id ++
          "|TEXT=" ++ pyBytesRepr text ++
          "|GRAPHICALLYLOCKED=" ++ graphically_locked)) ]

/-- Control points of `handle_bezier`: `int(record[f'X{i}'])` for indices
`i`, `i+1`, ... (`fuel` many). -/
def bezierPoints (record : Record) (i fuel : Nat) : Except PyErr (List (Int × Int)) :=
  match fuel with
  | 0 => .ok []
  | fuel + 1 => do
    let x ← pyIntKey record ("X" ++ toString i)
    let y ← pyIntKey record ("Y" ++ toString i)
    let rest ← bezierPoints record (i + 1) fuel
    .ok ((x, y) :: rest)

/-- Rendering of the collected control points (`enumerate` starting the
token indices back at 1). -/
def bezierPointsStr : Nat → List (Int × Int) → String
  | _, [] => ""
  | i, (x, y) :: rest =>
    "|X" ++ toString i ++ "=" ++ toString x ++ "|Y" ++ toString i ++ "=" ++ toString y ++
    bezierPointsStr (i + 1) rest

/-- Handler for record type 5 (`handle_bezier`): control points are read
for indices 1..LOCATIONCOUNT and emitted before the remaining fields. -/
def handle_bezier (record : Record) : HandlerOut :=
  runSegs "|RECORD=5"
    [ (do
        let owner_index ← pyIntKey record "OWNERINDEX"
        let is_not_accessible := if record.getD "ISNOTACCESIBLE" (.str "F") = .str "T" then "T" else "F"
        let owner_part_id ← pyIntKey record "OWNERPARTID"
        let line_width ← pyIntKey record "LINEWIDTH"
        let color ← pyIntKey record "COLOR"
        let location_count ← pyIntKeyD record "LOCATIONCOUNT" (.int 4)
        let control_points ← bezierPoints record 1 location_count.toNat
        asciiEncode (bezierPointsStr 1 control_points ++
          "|OWNERINDEX=" ++ toString owner_index ++
          "|ISNOTACCESIBLE=" ++ is_not_accessible ++
          "|OWNERPARTID=" ++ toString owner_part_id ++
          "|LINEWIDTH=" ++ toString line_width ++
          "|COLOR=" ++ toString color)) ]

/-- Coordinate-pair `append_if_present` steps for token indices 1..n
(`for i in range(1, n + 1)`), with the given key stems and the extra
`prefix` argument the caller passes. -/
def coordSteps (xKey yKey pfx : String) (n : Nat) : List AipStep :=
  (List.range n).flatMap (fun i =>
    [⟨xKey ++ toString (i + 1), false, none, pfx⟩,
     ⟨yKey ++ toString (i + 1), false, none, pfx⟩])

/-- Static steps of `handle_polyline` (record type 6). -/
def polylineSteps : List AipStep :=
  [⟨"OWNERINDEX", false, none, ""⟩, ⟨"ISNOTACCESIBLE", false, none, ""⟩,
   ⟨"INDEXINSHEET", false, none, ""⟩, ⟨"OWNERPARTID", false, none, ""⟩,
   ⟨"OWNERPARTDISPLAYMODE", false, none, ""⟩, ⟨"LINEWIDTH", false, none, ""⟩,
   ⟨"COLOR", false, none, ""⟩, ⟨"STARTLINESHAPE", false, none, ""⟩,
   ⟨"ENDLINESHAPE", false, none, ""⟩, ⟨"LINESHAPESIZE", false, none, ""⟩]

/-- Body of `handle_polyline`: static fields, then coordinate pairs for
indices 1..LOCATIONCOUNT, each passed `prefix='|'` (so those tokens carry
a doubled pipe). -/
def polyline_comp (record : Record) (data : List (List Nat)) :
    Except PyErr (List (List Nat)) :=
  match aipChain record polylineSteps data with
  | .error e => .error e
  | .ok d =>
    match pyIntKeyD record "LOCATIONCOUNT" (.int 0) with
    | .error e => .error e
    | .ok location_count =>
      aipChain record (coordSteps "X" "Y" "|" location_count.toNat) d

/-- Handler for record type 6 (`handle_polyline`). -/
def handle_polyline (record : Record) : HandlerOut :=
  runAip "|RECORD=6" (polyline_comp record)

/-- Static steps of `handle_polygon` (record type 7). -/
def polygonSteps : List AipStep :=
  [⟨"OWNERINDEX", false, none, ""⟩, ⟨"ISNOTACCESIBLE", false, some tfEqT, ""⟩,
   ⟨"INDEXINSHEET", false, none, ""⟩, ⟨"OWNERPARTID", false, none, ""⟩,
   ⟨"OWNERPARTDISPLAYMODE", false, none, ""⟩, ⟨"LINEWIDTH", false, none, ""⟩,
   ⟨"COLOR", false, none, ""⟩, ⟨"AREACOLOR", false, none, ""⟩,
   ⟨"ISSOLID", false, some tfEqT, ""⟩, ⟨"IGNOREONLOAD", false, some tfEqT, ""⟩]

/-- One optional counted coordinate block of `handle_polygon`: nothing
when the count key is absent, otherwise `int()` conversion followed by
the per-index `append_if_present` calls. -/
def polygonCoordBlock (record : Record) (countKey xKey yKey : String)
    (d : List (List Nat)) : Except PyErr (List (List Nat)) :=
  match record.find countKey with
  | none => .ok d
  | some v =>
    match pyInt v with
    | .error e => .error e
    | .ok n => aipChain record (coordSteps xKey yKey "" n.toNat) d

/-- Body of `handle_polygon`: static fields, then the two optional
counted coordinate blocks. -/
def polygon_comp (record : Record) (data : List (List Nat)) :
    Except PyErr (List (List Nat)) :=
  match aipChain record polygonSteps data with
  | .error e => .error e
  | .ok d1 =>
    match polygonCoordBlock record "LOCATIONCOUNT" "X" "Y" d1 with
    | .error e => .error e
    | .ok d2 => polygonCoordBlock record "EXTRALOCATIONCOUNT" "EX" "EY" d2

/-- Handler for record type 7 (`handle_polygon`). -/
def handle_polygon (record : Record) : HandlerOut :=
  runAip "|RECORD=7" (polygon_comp record)

/-- Handler for record type 8 (`handle_ellipse`). -/
def handle_ellipse (record : Record) : HandlerOut :=
  runAip "|RECORD=8" (aipChain record
    [⟨"OWNERINDEX", false, none, ""⟩, ⟨"ISNOTACCESIBLE", false, some tfEqT, ""⟩,
     ⟨"INDEXINSHEET", false, none, ""⟩, ⟨"OWNERPARTID", false, none, ""⟩,
     ⟨"RADIUS", false, none, ""⟩, ⟨"SECONDARYRADIUS", false, none, ""⟩,
     ⟨"COLOR", false, none, ""⟩, ⟨"AREACOLOR", false, none, ""⟩,
     ⟨"ISSOLID", false, some tfEqT, ""⟩, ⟨"LOCATION.X", false, none, ""⟩,
     ⟨"LOCATION.Y", false, none, ""⟩, ⟨"LINEWIDTH", false, none, ""⟩])

/-- Handler for record type 9 (`handle_piechart`): only the record tag is
emitted. -/
def handle_piechart (_record : Record) : HandlerOut :=
  runSegs "|RECORD=9" []

/-- Handler for record type 10 (`handle_round_rectangle`); the two flag
fields are interpolated raw (whatever value the record holds). -/
def handle_round_rectangle (record : Record) : HandlerOut :=
  runSegs "|RECORD=10"
    [ (do
        let owner_index ← pyIntKey record "OWNERINDEX"
        let is_not_accessible := record.getD "ISNOTACCESIBLE" (.str "T")
        let index_in_sheet ← pyIntKey record "INDEXINSHEET"
        let owner_part_id ← pyIntKey record "OWNERPARTID"
        let owner_part_display_mode ← pyIntKeyD record "OWNERPARTDISPLAYMODE" (.int 0)
        let location_x ← pyIntKey record "LOCATION.X"
        let location_y ← pyIntKey record "LOCATION.Y"
        let corner_x ← pyIntKey record "CORNER.X"
        let corner_y ← pyIntKey record "CORNER.Y"
        let corner_x_radius ← pyIntKeyD record "CORNERXRADIUS" (.int 0)
        let corner_y_radius ← pyIntKeyD record "CORNERYRADIUS" (.int 0)
        let line_width ← pyIntKey record "LINEWIDTH"
        let color ← pyIntKey record "COLOR"
        let area_color ← pyIntKeyD record "AREACOLOR" (.int 0)
        let is_solid := record.getD "ISSOLID" (.str "F")
        asciiEncode ("|OWNERINDEX=" ++ toString owner_index ++
          "|ISNOTACCESIBLE=" ++ pyStr is_not_accessible ++
          "|INDEXINSHEET=" ++ toString index_in_sheet ++
          "|OWNERPARTID=" ++ toString owner_part_id ++
          "|OWNERPARTDISPLAYMODE=" ++ toString owner_part_display_mode ++
          "|LOCATION.X=" ++ toString location_x ++
          "|LOCATION.Y=" ++ toString location_y ++
          "|CORNER.X=" ++ toString corner_x ++
          "|CORNER.Y=" ++ toString corner_y ++
          "|CORNERXRADIUS=" ++ toString corner_x_radius ++
          "|CORNERYRADIUS=" ++ toString corner_y_radius ++
          "|LINEWIDTH=" ++ toString line_width ++
          "|COLOR=" ++ toString color ++
          "|AREACOLOR=" ++ toString area_color ++
          "|ISSOLID=" ++ pyStr is_solid)) ]

/-- Rendering of Python `float(v)` restricted to the modelled domain:
integral values render with a trailing ".0"; other strings are mapped to
an error (see the module comment).  No theorem depends on this
rendering. -/
def pyFloatStr : Value → Except PyErr String
  | .int n => .ok (toString n ++ ".0")
  | .bool b => .ok (if b then "1.0" else "0.0")
  | .str s =>
    match pyIntOfStr s with
    | some n => .ok (toString n ++ ".0")
    | none => .error .valueError

/-- Python `float(record[key])` under the modelled float domain. -/
def pyFloatKey (record : Record) (key : String) : Except PyErr String := do
  let v ← record.findE key
  pyFloatStr v

/-- Handler for record type 11 (`handle_elliptical_arc`). -/
def handle_elliptical_arc (record : Record) : HandlerOut :=
  runSegs "|RECORD=11"
    [ (do
        let owner_index ← pyIntKey record "OWNERINDEX"
        let index_in_sheet ← pyIntKey record "INDEXINSHEET"
        let owner_part_id ← pyIntKey record "OWNERPARTID"
        let owner_part_display_mode ← pyIntKey record "OWNERPARTDISPLAYMODE"
        let location_x ← pyIntKey record "LOCATION.X"
        let location_y ← pyIntKey record "LOCATION.Y"
        let radius ← pyIntKey record "RADIUS"
        let radius_frac ← pyIntKeyD record "RADIUS_FRAC" (.int 0)
        let secondary_radius ← pyIntKey record "SECONDARYRADIUS"
        let secondary_radius_frac ← pyIntKeyD record "SECONDARYRADIUS_FRAC" (.int 0)
        let line_width ← pyIntKey record "LINEWIDTH"
        let start_angle ← pyFloatKey record "STARTANGLE"
        let end_angle ← pyFloatKey record "ENDANGLE"
        let color ← pyIntKey record "COLOR"
        asciiEncode ("|OWNERINDEX=" ++ toString owner_index ++
          "|ISNOTACCESIBLE=T" ++
          "|INDEXINSHEET=" ++ toString index_in_sheet ++
          "|OWNERPARTID=" ++ toString owner_part_id ++
          "|OWNERPARTDISPLAYMODE=" ++ toString owner_part_display_mode ++
          "|LOCATION.X=" ++ toString location_x ++
          "|LOCATION.Y=" ++ toString location_y ++
          "|RADIUS=" ++ toString radius ++
          "|RADIUS_FRAC=" ++ toString radius_frac ++
          "|SECONDARYRADIUS=" ++ toString secondary_radius ++
          "|SECONDARYRADIUS_FRAC=" ++ toString secondary_radius_frac ++
          "|LINEWIDTH=" ++ toString line_width ++
          "|STARTANGLE=" ++ start_angle ++
          "|ENDANGLE=" ++ end_angle ++
          "|COLOR=" ++ toString color)) ]

/-- Handler for record type 12 (`handle_arc`); the `format_string=''`
arguments are falsy, so every field is emitted as text. -/
def handle_arc (record : Record) : HandlerOut :=
  runAip "|RECORD=12" (aipChain record
    [⟨"OWNERINDEX", false, none, ""⟩, ⟨"ISNOTACCESIBLE", false, none, ""⟩,
     ⟨"INDEXINSHEET", false, none, ""⟩, ⟨"OWNERPARTID", false, none, ""⟩,
     ⟨"OWNERPARTDISPLAYMODE", false, none, ""⟩, ⟨"LOCATION.X", false, none, ""⟩,
     ⟨"LOCATION.Y", false, none, ""⟩, ⟨"RADIUS", false, none, ""⟩,
     ⟨"RADIUS_FRAC", false, none, ""⟩, ⟨"LINEWIDTH", false, none, ""⟩,
     ⟨"STARTANGLE", false, none, ""⟩, ⟨"ENDANGLE", false, none, ""⟩,
     ⟨"COLOR", false, none, ""⟩])

/-- Handler for record type 13 (`handle_line`). -/
def handle_line (record : Record) : HandlerOut :=
  runAip "|RECORD=13" (aipChain record
    [⟨"OWNERINDEX", false, none, ""⟩, ⟨"ISNOTACCESIBLE", false, none, ""⟩,
     ⟨"INDEXINSHEET", false, none, ""⟩, ⟨"OWNERPARTID", false, none, ""⟩,
     ⟨"OWNERPARTDISPLAYMODE", false, none, ""⟩, ⟨"LOCATION.X", false, none, ""⟩,
     ⟨"LOCATION.Y", false, none, ""⟩, ⟨"CORNER.X", false, none, ""⟩,
     ⟨"CORNER.Y", false, none, ""⟩, ⟨"LINEWIDTH", false, none, ""⟩,
     ⟨"COLOR", false, none, ""⟩])

/-- Fields of record types 34 and 41 packed with `struct.pack('<I', ...)`
and appended as `b"|KEY=" + packed` when present. -/
def packedSeg (record : Record) (key : String) : Except PyErr (List Nat) :=
  match record.find key with
  | none => .ok []
  | some v => do
    let n ← pyInt v
    let p ← packU32 n
    .ok (strBytes ("|" ++ key ++ "=") ++ p)

/-- Handler for record type 14 (the later `handle_rectangle` definition in
the source, which shadows the earlier one): six optional packed fields. -/
def handle_rectangle (record : Record) : HandlerOut :=
  runSegs "|RECORD=14"
    [packedSeg record "LOCATION.X", packedSeg record "LOCATION.Y",
     packedSeg record "CORNER.X", packedSeg record "CORNER.Y",
     packedSeg record "LINEWIDTH", packedSeg record "OWNERINDEX"]

/-- Handler for record type 15 (`handle_sheet_symbol`); `OWNERPARTID` is
hard-coded to -1 and `ISSOLID` to `T`. -/
def handle_sheet_symbol (record : Record) : HandlerOut :=
  runSegs "|RECORD=15"
    [ (do
        let index_in_sheet ← pyIntKey record "INDEXINSHEET"
        let location_x ← pyIntKey record "LOCATION.X"
        let location_y ← pyIntKey record "LOCATION.Y"
        let x_size ← pyIntKey record "XSIZE"
        let y_size ← pyIntKey record "YSIZE"
        let color ← pyIntKey record "COLOR"
        let area_color ← pyIntKey record "AREACOLOR"
        let unique_id ← record.findE "UNIQUEID"
        let symbol_type := record.getD "SYMBOLTYPE" (.str "Normal")
        asciiEncode ("|INDEXINSHEET=" ++ toString index_in_sheet ++
          "|OWNERPARTID=-1" ++
          "|LOCATION.X=" ++ toString location_x ++
          "|LOCATION.Y=" ++ toString location_y ++
          "|XSIZE=" ++ toString x_size ++
          "|YSIZE=" ++ toString y_size ++
          "|COLOR=" ++ toString color ++
          "|AREACOLOR=" ++ toString area_color ++
          "|ISSOLID=T" ++
          "|UNIQUEID=" ++ pyStr unique_id ++
          "|SYMBOLTYPE=" ++ pyStr symbol_type)) ]

/-- Handler for record type 16 (`handle_sheet_entry`); the three
`.encode('ascii')` results are interpolated as bytes `repr`s. -/
def handle_sheet_entry (record : Record) : HandlerOut :=
  runSegs "|RECORD=16"
    [ (do
        let area_color ← pyIntKey record "AREACOLOR"
        let arrow_kind ← record.findE "ARROWKIND"
        let color ← pyIntKey record "COLOR"
        let distance_from_top ← pyIntKey record "DISTANCEFROMTOP"
        let distance_from_top_frac ← pyIntKey record "DISTANCEFROMTOP_FRAC1"
        let namev ← record.findE "NAME"
        let name ← encodeAsciiV namev
        let owner_part_id ← pyIntKey record "OWNERPARTID"
        let owner_index ← pyIntKey record "OWNERINDEX"
        let text_color ← pyIntKey record "TEXTCOLOR"
        let text_font_id ← pyIntKey record "TEXTFONTID"
        let text_stylev ← record.findE "TEXTSTYLE"
        let text_style ← encodeAsciiV text_stylev
        let index_in_sheet ← pyIntKey record "INDEXINSHEET"
        let harness_typev ← record.findE "HARNESSTYPE"
        let harness_type ← encodeAsciiV harness_typev
        let side ← pyIntKey record "SIDE"
        let style ← pyIntKey record "STYLE"
        let io_type ← pyIntKey record "IOTYPE"
        asciiEncode ("|AREACOLOR=" ++ toString area_color ++
          "|ARROWKIND=" ++ pyStr arrow_kind ++
          "|COLOR=" ++ toString color ++
          "|DISTANCEFROMTOP=" ++ toString distance_from_top ++
          "|DISTANCEFROMTOP_FRAC1=" ++ toString distance_from_top_frac ++
          "|NAME=" ++ pyBytesRepr name ++
          "|OWNERPARTID=" ++ toString owner_part_id ++
          "|OWNERINDEX=" ++ toString owner_index ++
          "|TEXTCOLOR=" ++ toString text_color ++
          "|TEXTFONTID=" ++ toString text_font_id ++
          "|TEXTSTYLE=" ++ pyBytesRepr text_style ++
          "|INDEXINSHEET=" ++ toString index_in_sheet ++
          "|HARNESSTYPE=" ++ pyBytesRepr harness_type ++
          "|SIDE=" ++ toString side ++
          "|STYLE=" ++ toString style ++
          "|IOTYPE=" ++ toString io_type)) ]

/-- Handler for record type 17 (`handle_power_port`). -/
def handle_power_port (record : Record) : HandlerOut :=
  runAip "|RECORD=17" (aipChain record
    [⟨"INDEXINSHEET", false, none, ""⟩, ⟨"OWNERPARTID", false, none, ""⟩,
     ⟨"STYLE", false, none, ""⟩, ⟨"SHOWNETNAME", false, some tfTruthyTF, ""⟩,
     ⟨"LOCATION.X", false, none, ""⟩, ⟨"LOCATION.Y", false, none, ""⟩,
     ⟨"ORIENTATION", false, none, ""⟩, ⟨"COLOR", false, none, ""⟩,
     ⟨"TEXT", false, some tfEncodeAscii, ""⟩,
     ⟨"ISCROSSSHEETCONNECTOR", false, some tfTruthyTF, ""⟩,
     ⟨"UNIQUEID", false, some tfEncodeAscii, ""⟩, ⟨"FONTID", false, none, ""⟩])

/-- Handler for record type 18 (`handle_port`). -/
def handle_port (record : Record) : HandlerOut :=
  runAip "|RECORD=18" (aipChain record
    [⟨"INDEXINSHEET", false, none, ""⟩, ⟨"OWNERPARTID", false, none, ""⟩,
     ⟨"STYLE", false, none, ""⟩, ⟨"IOTYPE", false, none, ""⟩,
     ⟨"ALIGNMENT", false, none, ""⟩, ⟨"WIDTH", false, none, ""⟩,
     ⟨"LOCATION.X", false, none, ""⟩, ⟨"LOCATION.Y", false, none, ""⟩,
     ⟨"COLOR", false, none, ""⟩, ⟨"AREACOLOR", false, none, ""⟩,
     ⟨"TEXTCOLOR", false, none, ""⟩, ⟨"NAME", false, some tfEncodeAscii, ""⟩,
     ⟨"UNIQUEID", false, some tfEncodeAscii, ""⟩, ⟨"FONTID", false, none, ""⟩,
     ⟨"HEIGHT", false, none, ""⟩, ⟨"HARNESSTYPE", false, some tfEncodeAscii, ""⟩])

/-- Handler for record type 22 (`handle_no_erc`); the two flag transforms
compare against the string value `True`. -/
def handle_no_erc (record : Record) : HandlerOut :=
  runAip "|RECORD=22" (aipChain record
    [⟨"INDEXINSHEET", false, none, ""⟩, ⟨"OWNERPARTID", false, none, ""⟩,
     ⟨"LOCATION.X", false, none, ""⟩, ⟨"LOCATION.Y", false, none, ""⟩,
     ⟨"COLOR", false, none, ""⟩, ⟨"ISACTIVE", false, some tfEqTrueStr, ""⟩,
     ⟨"ORIENTATION", false, none, ""⟩, ⟨"SUPPRESSALL", false, some tfEqTrueStr, ""⟩,
     ⟨"SYMBOL", false, some tfEncodeAscii, ""⟩,
     ⟨"UNIQUEID", false, some tfEncodeAscii, ""⟩])

/-- Handler for record type 25 (`handle_net_label`). -/
def handle_net_label (record : Record) : HandlerOut :=
  runAip "|RECORD=25" (aipChain record
    [⟨"INDEXINSHEET", false, none, ""⟩, ⟨"OWNERPARTID", false, none, ""⟩,
     ⟨"LOCATION.X", false, none, ""⟩, ⟨"LOCATION.Y", false, none, ""⟩,
     ⟨"COLOR", false, none, ""⟩, ⟨"FONTID", false, none, ""⟩,
     ⟨"TEXT", false, some tfEncodeAscii, ""⟩, ⟨"ORIENTATION", false, none, ""⟩,
     ⟨"UNIQUEID", false, some tfEncodeAscii, ""⟩])

/-- Header string of `handle_bus` (record type 26), written to the stream
before the coordinate loop starts. -/
def busHeader (index_in_sheet owner_part_id line_width color location_count : Int) :
    String :=
  "|RECORD=26" ++
  ("|INDEXINSHEET=" ++ toString index_in_sheet ++
   "|OWNERPARTID=" ++ toString owner_part_id ++
   "|LINEWIDTH=" ++ toString line_width ++
   "|COLOR=" ++ toString color ++
   "|LOCATIONCOUNT=" ++ toString location_count)

/-- Bytes written by the coordinate loop of `handle_bus`/`handle_wire` for
indices `i`, `i+1`, ... (`fuel` many, starting at 0): each `X{i}`/`Y{i}`
pair defaults to 0 and is written immediately, so a conversion error
leaves the earlier writes in the stream. -/
def coordPairWrites (record : Record) (i fuel : Nat) : List Nat × Option PyErr :=
  match fuel with
  | 0 => ([], none)
  | fuel + 1 =>
    match pyIntKeyD record ("X" ++ toString i) (.int 0) with
    | .error e => ([], some e)
    | .ok x =>
      match pyIntKeyD record ("Y" ++ toString i) (.int 0) with
      | .error e => ([], some e)
      | .ok y =>
        let (rest, e) := coordPairWrites record (i + 1) fuel
        (strBytes ("|X" ++ toString i ++ "=" ++ toString x ++
          "|Y" ++ toString i ++ "=" ++ toString y) ++ rest, e)

/-- Handler for record type 26 (`handle_bus`): writes the header, then the
coordinate pairs one at a time, then the newline. -/
def handle_bus (record : Record) : HandlerOut :=
  match (do
    let index_in_sheet ← pyIntKeyD record "INDEXINSHEET" (.int (-1))
    let owner_part_id ← pyIntKeyD record "OWNERPARTID" (.int (-1))
    let line_width ← pyIntKeyD record "LINEWIDTH" (.int 1)
    let color ← pyIntKeyD record "COLOR" (.int 0)
    let location_count ← pyIntKeyD record "LOCATIONCOUNT" (.int 0)
    .ok (index_in_sheet, owner_part_id, line_width, color, location_count)
    : Except PyErr (Int × Int × Int × Int × Int)) with
  | .error e => ⟨[], some e⟩
  | .ok (a, b, c, d, n) =>
    match coordPairWrites record 0 n.toNat with
    | (pb, some e) => ⟨strBytes (busHeader a b c d n) ++ pb, some e⟩
    | (pb, none) => ⟨strBytes (busHeader a b c d n) ++ pb ++ [10], none⟩

/-- Header string of `handle_wire` (record type 27). -/
def wireHeader (index_in_sheet owner_part_id line_width color location_count : Int)
    (unique_id : String) : String :=
  "|RECORD=27" ++
  ("|INDEXINSHEET=" ++ toString index_in_sheet ++
   "|OWNERPARTID=" ++ toString owner_part_id ++
   "|LINEWIDTH=" ++ toString line_width ++
   "|COLOR=" ++ toString color ++
   "|LOCATIONCOUNT=" ++ toString location_count ++
   "|UNIQUEID=" ++ unique_id)

/-- Handler for record type 27 (`handle_wire`): identical loop structure
to `handle_bus`, with a raw `UNIQUEID` in the header. -/
def handle_wire (record : Record) : HandlerOut :=
  match (do
    let index_in_sheet ← pyIntKeyD record "INDEXINSHEET" (.int (-1))
    let owner_part_id ← pyIntKeyD record "OWNERPARTID" (.int (-1))
    let line_width ← pyIntKeyD record "LINEWIDTH" (.int 1)
    let color ← pyIntKeyD record "COLOR" (.int 0)
    let location_count ← pyIntKeyD record "LOCATIONCOUNT" (.int 0)
    .ok (index_in_sheet, owner_part_id, line_width, color, location_count)
    : Except PyErr (Int × Int × Int × Int × Int)) with
  | .error e => ⟨[], some e⟩
  | .ok (a, b, c, d, n) =>
    match coordPairWrites record 0 n.toNat with
    | (pb, some e) =>
      ⟨strBytes (wireHeader a b c d n (pyStr (record.getD "UNIQUEID" (.str "")))) ++ pb,
       some e⟩
    | (pb, none) =>
      ⟨strBytes (wireHeader a b c d n (pyStr (record.getD "UNIQUEID" (.str "")))) ++ pb ++ [10],
       none⟩

/-- Handler for record type 28 (`handle_text_frame`); the whole f-string
is encoded UTF-8, raw values interpolated as-is. -/
def handle_text_frame (record : Record) : HandlerOut :=
  runSegs "|RECORD=28"
    [ (do
        let owner_part_id ← pyIntKeyD record "OWNERPARTID" (.int (-1))
        let location_x ← pyIntKeyD record "LOCATION.X" (.int 0)
        let location_y ← pyIntKeyD record "LOCATION.Y" (.int 0)
        let corner_x ← pyIntKeyD record "CORNER.X" (.int 0)
        let corner_y ← pyIntKeyD record "CORNER.Y" (.int 0)
        let area_color ← pyIntKeyD record "AREACOLOR" (.int 16777215)
        let font_id ← pyIntKeyD record "FONTID" (.int 1)
        let alignment ← pyIntKeyD record "ALIGNMENT" (.int 1)
        let word_wrap := record.getD "WORDWRAP" (.str "T")
        let color ← pyIntKeyD record "COLOR" (.int 0)
        let is_solid := record.getD "ISSOLID" (.str "F")
        let clip_to_rect := record.getD "CLIPTORECT" (.str "F")
        let is_not_accessible := record.getD "ISNOTACCESIBLE" (.str "F")
        let orientation ← pyIntKeyD record "ORIENTATION" (.int 0)
        let text_margin_frac ← pyIntKeyD record "TEXTMARGIN_FRAC" (.int 0)
        let index_in_sheet ← pyIntKeyD record "INDEXINSHEET" (.int (-1))
        let text := record.getD "TEXT" (.str "")
        let show_border := record.getD "SHOWBORDER" (.str "F")
        .ok (strBytes ("|OWNERPARTID=" ++ toString owner_part_id ++
          "|LOCATION.X=" ++ toString location_x ++
          "|LOCATION.Y=" ++ toString location_y ++
          "|CORNER.X=" ++ toString corner_x ++
          "|CORNER.Y=" ++ toString corner_y ++
          "|AREACOLOR=" ++ toString area_color ++
          "|FONTID=" ++ toString font_id ++
          "|ALIGNMENT=" ++ toString alignment ++
          "|WORDWRAP=" ++ pyStr word_wrap ++
          "|COLOR=" ++ toString color ++
          "|ISSOLID=" ++ pyStr is_solid ++
          "|CLIPTORECT=" ++ pyStr clip_to_rect ++
          "|ISNOTACCESIBLE=" ++ pyStr is_not_accessible ++
          "|ORIENTATION=" ++ toString orientation ++
          "|TEXTMARGIN_FRAC=" ++ toString text_margin_frac ++
          "|INDEXINSHEET=" ++ toString index_in_sheet ++
          "|TEXT=" ++ pyStr text ++
          "|SHOWBORDER=" ++ pyStr show_border))) ]

/-- Handler for record type 29 (`handle_junction`). -/
def handle_junction (record : Record) : HandlerOut :=
  runAip "|RECORD=29" (aipChain record
    [⟨"INDEXINSHEET", false, none, ""⟩, ⟨"LOCKED", false, some tfTruthyTF, ""⟩,
     ⟨"OWNERPARTID", false, none, ""⟩, ⟨"LOCATION.X", false, none, ""⟩,
     ⟨"LOCATION.Y", false, none, ""⟩, ⟨"COLOR", false, none, ""⟩])

/-- Handler for record type 30 (`handle_image`); `FILENAME` is encoded
ASCII and interpolated as a bytes `repr`, the two flags by truthiness. -/
def handle_image (record : Record) : HandlerOut :=
  runSegs "|RECORD=30"
    [ (do
        let owner_index ← pyIntKey record "OWNERINDEX"
        let index_in_sheet ← pyIntKey record "INDEXINSHEET"
        let owner_part_id ← pyIntKeyD record "OWNERPARTID" (.int (-1))
        let location_x ← pyIntKey record "LOCATION.X"
        let location_y ← pyIntKey record "LOCATION.Y"
        let corner_x ← pyIntKey record "CORNER.X"
        let corner_y ← pyIntKey record "CORNER.Y"
        let embed_imagev ← record.findE "EMBEDIMAGE"
        let file_namev ← record.findE "FILENAME"
        let file_name ← encodeAsciiV file_namev
        let keep_aspectv ← record.findE "KEEPASPECT"
        asciiEncode ("|OWNERINDEX=" ++ toString owner_index ++
          "|INDEXINSHEET=" ++ toString index_in_sheet ++
          "|OWNERPARTID=" ++ toString owner_part_id ++
          "|LOCATION.X=" ++ toString location_x ++
          "|LOCATION.Y=" ++ toString location_y ++
          "|CORNER.X=" ++ toString corner_x ++
          "|CORNER.Y=" ++ toString corner_y ++
          "|EMBEDIMAGE=" ++ (if pyTruthy embed_imagev then "T" else "F") ++
          "|FILENAME=" ++ pyBytesRepr file_name ++
          "|KEEPASPECT=" ++ (if pyTruthy keep_aspectv then "T" else "F"))) ]

/-- Handler for record type 31 (the later `handle_sheet` definition, which
shadows the earlier one): defaults for every field, UTF-8 encoding. -/
def handle_sheet (record : Record) : HandlerOut :=
  runSegs "|RECORD=31"
    [ (do
        let font_id_count ← pyIntKeyD record "FONTIDCOUNT" (.int 1)
        let sheet_style ← pyIntKeyD record "SHEETSTYLE" (.int 0)
        let system_font ← pyIntKeyD record "SYSTEMFONT" (.int 1)
        let border_on := record.getD "BORDERON" (.str "T")
        let title_block_on := record.getD "TITLEBLOCKON" (.str "T")
        let snap_grid_on := record.getD "SNAPGRIDON" (.str "T")
        let visible_grid_on := record.getD "VISIBLEGRIDON" (.str "T")
        let snap_grid_size ← pyIntKeyD record "SNAPGRIDSIZE" (.int 10)
        let visible_grid_size ← pyIntKeyD record "VISIBLEGRIDSIZE" (.int 10)
        let custom_x ← pyIntKeyD record "CUSTOMX" (.int 0)
        let custom_y ← pyIntKeyD record "CUSTOMY" (.int 0)
        let use_custom_sheet := record.getD "USECUSTOMSHEET" (.str "F")
        let workspace_orientation ← pyIntKeyD record "WORKSPACEORIENTATION" (.int 0)
        let custom_x_zones ← pyIntKeyD record "CUSTOMXZONES" (.int 1)
        let custom_y_zones ← pyIntKeyD record "CUSTOMYZONES" (.int 1)
        let custom_margin_width ← pyIntKeyD record "CUSTOMMARGINWIDTH" (.int 20)
        let display_unit ← pyIntKeyD record "DISPLAY_UNIT" (.int 4)
        let reference_zones_on := record.getD "REFERENCEZONESON" (.str "T")
        let show_template_graphics := record.getD "SHOWTEMPLATEGRAPHICS" (.str "T")
        let template_filename := record.getD "TEMPLATEFILENAME" (.str "")
        let area_color ← pyIntKeyD record "AREACOLOR" (.int 16777215)
        .ok (strBytes ("|FONTIDCOUNT=" ++ toString font_id_count ++
          "|SHEETSTYLE=" ++ toString sheet_style ++
          "|SYSTEMFONT=" ++ toString system_font ++
          "|BORDERON=" ++ pyStr border_on ++
          "|TITLEBLOCKON=" ++ pyStr title_block_on ++
          "|SNAPGRIDON=" ++ pyStr snap_grid_on ++
          "|VISIBLEGRIDON=" ++ pyStr visible_grid_on ++
          "|SNAPGRIDSIZE=" ++ toString snap_grid_size ++
          "|VISIBLEGRIDSIZE=" ++ toString visible_grid_size ++
          "|CUSTOMX=" ++ toString custom_x ++
          "|CUSTOMY=" ++ toString custom_y ++
          "|USECUSTOMSHEET=" ++ pyStr use_custom_sheet ++
          "|WORKSPACEORIENTATION=" ++ toString workspace_orientation ++
          "|CUSTOMXZONES=" ++ toString custom_x_zones ++
          "|CUSTOMYZONES=" ++ toString custom_y_zones ++
          "|CUSTOMMARGINWIDTH=" ++ toString custom_margin_width ++
          "|DISPLAY_UNIT=" ++ toString display_unit ++
          "|REFERENCEZONESON=" ++ pyStr reference_zones_on ++
          "|SHOWTEMPLATEGRAPHICS=" ++ pyStr show_template_graphics ++
          "|TEMPLATEFILENAME=" ++ pyStr template_filename ++
          "|AREACOLOR=" ++ toString area_color))) ]

/-- Handler registered for record types 32 and 33
(`handle_sheet_name_and_file_name`): the `|RECORD=` token carries the raw
`RECORD` value from the record itself. -/
def handle_sheet_name_and_file_name (record : Record) : HandlerOut :=
  match record.findE "RECORD" with
  | .error e => ⟨[], some e⟩
  | .ok record_type =>
    match (do
      let owner_index := record.getD "OWNERINDEX" (.int 0)
      let index_in_sheet ← pyIntKeyD record "INDEXINSHEET" (.int (-1))
      let owner_part_id ← pyIntKeyD record "OWNERPARTID" (.int (-1))
      let location_x ← pyIntKeyD record "LOCATION.X" (.int 0)
      let location_y ← pyIntKeyD record "LOCATION.Y" (.int 0)
      let color ← pyIntKeyD record "COLOR" (.int 0)
      let font_id ← pyIntKeyD record "FONTID" (.int 1)
      let text := record.getD "TEXT" (.str "")
      .ok ("|OWNERINDEX=" ++ pyStr owner_index ++
        "|INDEXINSHEET=" ++ toString index_in_sheet ++
        "|OWNERPARTID=" ++ toString owner_part_id ++
        "|LOCATION.X=" ++ toString location_x ++
        "|LOCATION.Y=" ++ toString location_y ++
        "|COLOR=" ++ toString color ++
        "|FONTID=" ++ toString font_id ++
        "|TEXT=" ++ pyStr text)
      : Except PyErr String) with
    | .ok rest => ⟨strBytes (("|RECORD=" ++ pyStr record_type) ++ rest) ++ [10], none⟩
    | .error e => ⟨[], some e⟩

/-- Optional flag of record types 34/41 emitted as `b'T'`/`b'F'` by
comparison with the string `T`. -/
def tfSegT (record : Record) (key : String) : Except PyErr (List Nat) :=
  match record.find key with
  | none => .ok []
  | some v => .ok (strBytes ("|" ++ key ++ "=") ++ [if v = .str "T" then 84 else 70])

/-- Optional text field of record types 34/41 appended as
`b"|<emit>=" + value.encode('utf-8')` (direct bytes concatenation, no
`repr`); `emit` is the token name the source writes, which for the
`%UTF8%` fields of record 41 drops the leading `%`. -/
def utf8DirectSeg (record : Record) (key emit : String) : Except PyErr (List Nat) :=
  match record.find key with
  | none => .ok []
  | some v => do
    let bs ← encodeUtf8V v
    .ok (strBytes ("|" ++ emit ++ "=") ++ bs)

/-- Field segments of `handle_designator` (record type 34) in statement
order; integer fields are packed little-endian. -/
def designator_segs (record : Record) : List (Except PyErr (List Nat)) :=
  [packedSeg record "OWNERINDEX", packedSeg record "INDEXINSHEET",
   packedSeg record "OWNERPARTID", packedSeg record "LOCATION.X",
   packedSeg record "LOCATION.Y", packedSeg record "COLOR",
   packedSeg record "FONTID", utf8DirectSeg record "TEXT" "TEXT",
   utf8DirectSeg record "NAME" "NAME", packedSeg record "READONLYSTATE",
   tfSegT record "ISMIRRORED", packedSeg record "ORIENTATION",
   tfSegT record "ISHIDDEN", utf8DirectSeg record "UNIQUEID" "UNIQUEID",
   tfSegT record "OVERRIDENOTAUTOPOSITION"]

/-- Handler for record type 34 (`handle_designator`). -/
def handle_designator (record : Record) : HandlerOut :=
  runSegs "|RECORD=34" (designator_segs record)

/-- Handler for record type 37 (`handle_bus_entry`). -/
def handle_bus_entry (record : Record) : HandlerOut :=
  runSegs "|RECORD=37"
    [ (do
        let color ← pyIntKeyD record "COLOR" (.int 8388608)
        let corner_x ← pyIntKey record "CORNER.X"
        let corner_y ← pyIntKey record "CORNER.Y"
        let line_width ← pyIntKey record "LINEWIDTH"
        let location_x ← pyIntKey record "LOCATION.X"
        let location_y ← pyIntKey record "LOCATION.Y"
        let owner_part_id ← pyIntKeyD record "OWNERPARTID" (.int (-1))
        asciiEncode ("|COLOR=" ++ toString color ++
          "|CORNER.X=" ++ toString corner_x ++
          "|CORNER.Y=" ++ toString corner_y ++
          "|LINEWIDTH=" ++ toString line_width ++
          "|LOCATION.X=" ++ toString location_x ++
          "|LOCATION.Y=" ++ toString location_y ++
          "|OWNERPARTID=" ++ toString owner_part_id)) ]

/-- Handler for record type 39 (`handle_template`); `ISNOTACCESIBLE`
defaults to the boolean `True` and is rendered by truthiness, `FILENAME`
is encoded UTF-8 and interpolated as a bytes `repr`. -/
def handle_template (record : Record) : HandlerOut :=
  runSegs "|RECORD=39"
    [ (do
        let filenamev ← record.findE "FILENAME"
        let filename ← encodeUtf8V filenamev
        let owner_part_id ← pyIntKeyD record "OWNERPARTID" (.int (-1))
        asciiEncode ("|ISNOTACCESIBLE=" ++
          (if pyTruthy (record.getD "ISNOTACCESIBLE" (.bool true)) then "T" else "F") ++
          "|OWNERPARTID=" ++ toString owner_part_id ++
          "|FILENAME=" ++ pyBytesRepr filename)) ]

/-- Field segments of `handle_parameter` (record type 41) in statement
order.  Note the override tokens are written `b"|UTF8%TEXT="` and
`b"|UTF8%NAME="`, without the leading `%` of the key they test. -/
def parameter_segs (record : Record) : List (Except PyErr (List Nat)) :=
  [packedSeg record "INDEXINSHEET", packedSeg record "OWNERINDEX",
   packedSeg record "OWNERPARTID", packedSeg record "LOCATION.X",
   packedSeg record "LOCATION.Y", packedSeg record "ORIENTATION",
   packedSeg record "COLOR", packedSeg record "FONTID",
   tfSegT record "ISHIDDEN", utf8DirectSeg record "TEXT" "TEXT",
   utf8DirectSeg record "NAME" "NAME",
   utf8DirectSeg record "%UTF8%TEXT" "UTF8%TEXT",
   utf8DirectSeg record "%UTF8%NAME" "UTF8%NAME",
   packedSeg record "READONLYSTATE", utf8DirectSeg record "UNIQUEID" "UNIQUEID",
   tfSegT record "ISMIRRORED", tfSegT record "NOTAUTOPOSITION",
   tfSegT record "SHOWNAME"]

/-- Handler for record type 41 (`handle_parameter`). -/
def handle_parameter (record : Record) : HandlerOut :=
  runSegs "|RECORD=41" (parameter_segs record)

/-- Handler for record type 43 (`handle_warning_sign`). -/
def handle_warning_sign (record : Record) : HandlerOut :=
  runAip "|RECORD=43" (aipChain record
    [⟨"OWNERPARTID", false, none, ""⟩, ⟨"LOCATION.X", false, none, ""⟩,
     ⟨"LOCATION.Y", false, none, ""⟩, ⟨"COLOR", false, none, ""⟩,
     ⟨"NAME", false, some tfEncodeUtf8, ""⟩, ⟨"ORIENTATION", false, none, ""⟩])

/-- Handler for record type 44 (`handle_implementation_list`). -/
def handle_implementation_list (record : Record) : HandlerOut :=
  runSegs "|RECORD=44"
    [.ok (strBytes ("|OWNERINDEX=" ++ pyStr (record.getD "OWNERINDEX" (.int 0))))]

/-- Handler for record type 45 (the later `handle_implementation`
definition, which shadows the earlier one). -/
def handle_implementation (record : Record) : HandlerOut :=
  runSegs "|RECORD=45"
    [ (do
        let owner_index := record.getD "OWNERINDEX" (.int 0)
        let index_in_sheet ← pyIntKeyD record "INDEXINSHEET" (.int (-1))
        let unique_id := record.getD "UNIQUEID" (.str "")
        let description := record.getD "DESCRIPTION" (.str "")
        let use_component_library := record.getD "USECOMPONENTLIBRARY" (.str "F")
        let model_name := record.getD "MODELNAME" (.str "")
        let model_type := record.getD "MODELTYPE" (.str "")
        let data_file_count ← pyIntKeyD record "DATAFILECOUNT" (.int 0)
        let model_data_file_entity0 := record.getD "MODELDATAFILEENTITY0" (.str "")
        let model_data_file_kind0 := record.getD "MODELDATAFILEKIND0" (.str "")
        let data_links_locked := record.getD "DATALINKSLOCKED" (.str "F")
        let database_data_links_locked := record.getD "DATABASEDATALINKSLOCKED" (.str "F")
        let integrated_model := record.getD "INTEGRATEDMODEL" (.str "F")
        let is_current := record.getD "ISCURRENT" (.str "F")
        .ok (strBytes ("|OWNERINDEX=" ++ pyStr owner_index ++
          "|INDEXINSHEET=" ++ toString index_in_sheet ++
          "|UNIQUEID=" ++ pyStr unique_id ++
          "|DESCRIPTION=" ++ pyStr description ++
          "|USECOMPONENTLIBRARY=" ++ pyStr use_component_library ++
          "|MODELNAME=" ++ pyStr model_name ++
          "|MODELTYPE=" ++ pyStr model_type ++
          "|DATAFILECOUNT=" ++ toString data_file_count ++
          "|MODELDATAFILEENTITY0=" ++ pyStr model_data_file_entity0 ++
          "|MODELDATAFILEKIND0=" ++ pyStr model_data_file_kind0 ++
          "|DATALINKSLOCKED=" ++ pyStr data_links_locked ++
          "|DATABASEDATALINKSLOCKED=" ++ pyStr database_data_links_locked ++
          "|INTEGRATEDMODEL=" ++ pyStr integrated_model ++
          "|ISCURRENT=" ++ pyStr is_current))) ]

/-- Handler for record type 46 (`handle_46`). -/
def handle_46 (record : Record) : HandlerOut :=
  runSegs "|RECORD=46"
    [.ok (strBytes ("|OWNERINDEX=" ++ pyStr (record.getD "OWNERINDEX" (.int 0))))]

/-- Handler for record type 47 (`handle_47`); all values interpolated
raw. -/
def handle_47 (record : Record) : HandlerOut :=
  runSegs "|RECORD=47"
    [.ok (strBytes ("|OWNERINDEX=" ++ pyStr (record.getD "OWNERINDEX" (.int 0)) ++
      "|INDEXINSHEET=" ++ pyStr (record.getD "INDEXINSHEET" (.int 0)) ++
      "|DESINTF=" ++ pyStr (record.getD "DESINTF" (.str "")) ++
      "|DESIMPCOUNT=" ++ pyStr (record.getD "DESIMPCOUNT" (.int 1)) ++
      "|DESIMP0=" ++ pyStr (record.getD "DESIMP0" (.str ""))))]

/-- Handler for record type 48 (`handle_48`). -/
def handle_48 (record : Record) : HandlerOut :=
  runSegs "|RECORD=48"
    [.ok (strBytes ("|OWNERINDEX=" ++ pyStr (record.getD "OWNERINDEX" (.int 0))))]

/-- Handler registered for record type 215
(`handle_additional_sheet_symbol`): its body is only a docstring, so it
writes nothing. -/
def handle_additional_sheet_symbol (_record : Record) : HandlerOut :=
  ⟨[], none⟩

/-- Handler registered for record type 216 (`handle_additional_generic`):
its body is only a docstring, so it writes nothing. -/
def handle_additional_generic (_record : Record) : HandlerOut :=
  ⟨[], none⟩

/-- Handler for record type 217
(`handle_additional_sheet_name_and_file_name`); `TEXT` is encoded UTF-8
and interpolated as a bytes `repr`, the other two values raw (the first
defaulting to the boolean `False`). -/
def handle_additional_sheet_name_and_file_name (record : Record) : HandlerOut :=
  runSegs "|RECORD=217"
    [ (do
        let text ← encodeUtf8V (record.getD "TEXT" (.str ""))
        .ok (strBytes ("|OWNERINDEXADDITIONALLIST=" ++
          pyStr (record.getD "OWNERINDEXADDITIONALLIST" (.bool false)) ++
          "|ISHIDDEN=" ++ pyStr (record.getD "ISHIDDEN" (.str "F")) ++
          "|TEXT=" ++ pyBytesRepr text))) ]

/-- Handler for record type 218 (`handle_additional_geometry`); every
value is interpolated raw. -/
def handle_additional_geometry (record : Record) : HandlerOut :=
  runSegs "|RECORD=218"
    [.ok (strBytes ("|COLOR=" ++ pyStr (record.getD "COLOR" (.int 15187117)) ++
      "|INDEXINSHEET=" ++ pyStr (record.getD "INDEXINSHEET" (.int (-1))) ++
      "|LINEWIDTH=" ++ pyStr (record.getD "LINEWIDTH" (.int 1)) ++
      "|LOCATIONCOUNT=" ++ pyStr (record.getD "LOCATIONCOUNT" (.int 2)) ++
      "|OWNERPARTID=" ++ pyStr (record.getD "OWNERPARTID" (.int (-1))) ++
      "|X1=" ++ pyStr (record.getD "X1" (.int 0)) ++
      "|X2=" ++ pyStr (record.getD "X2" (.int 0)) ++
      "|Y1=" ++ pyStr (record.getD "Y1" (.int 0)) ++
      "|Y2=" ++ pyStr (record.getD "Y2" (.int 0))))]

/-- Handler for record type 226 (the later `handle_hyperlink` definition,
which shadows the earlier one); `FILENAME` is encoded UTF-8 and
interpolated as a bytes `repr`, the rest raw. -/
def handle_hyperlink (record : Record) : HandlerOut :=
  runSegs "|RECORD=226"
    [ (do
        let filename ← encodeUtf8V (record.getD "FILENAME" (.str ""))
        .ok (strBytes ("|INDEXINSHEET=" ++ pyStr (record.getD "INDEXINSHEET" (.int (-1))) ++
          "|OWNERPARTID=" ++ pyStr (record.getD "OWNERPARTID" (.int (-1))) ++
          "|LOCATION.X=" ++ pyStr (record.getD "LOCATION.X" (.int 0)) ++
          "|LOCATION.Y=" ++ pyStr (record.getD "LOCATION.Y" (.int 0)) ++
          "|FILENAME=" ++ pyBytesRepr filename))) ]

/-- The `record_handlers` dispatch table, as an association list from type
code to handler (Python dict keys are unique, so first-match lookup
models `dict.get`). -/
def handlersList : List (Int × (Record → HandlerOut)) :=
  [(0, handle_header), (1, handle_component), (2, handle_pin),
   (3, handle_ieee_symbol), (4, handle_label), (5, handle_bezier),
   (6, handle_polyline), (7, handle_polygon), (8, handle_ellipse),
   (9, handle_piechart), (10, handle_round_rectangle),
   (11, handle_elliptical_arc), (12, handle_arc), (13, handle_line),
   (14, handle_rectangle), (15, handle_sheet_symbol), (16, handle_sheet_entry),
   (17, handle_power_port), (18, handle_port), (22, handle_no_erc),
   (25, handle_net_label), (26, handle_bus), (27, handle_wire),
   (28, handle_text_frame), (29, handle_junction), (30, handle_image),
   (31, handle_sheet), (32, handle_sheet_name_and_file_name),
   (33, handle_sheet_name_and_file_name), (34, handle_designator),
   (37, handle_bus_entry), (39, handle_template), (41, handle_parameter),
   (43, handle_warning_sign), (44, handle_implementation_list),
   (45, handle_implementation), (46, handle_46), (47, handle_47),
   (48, handle_48), (215, handle_additional_sheet_symbol),
   (216, handle_additional_generic),
   (217, handle_additional_sheet_name_and_file_name),
   (218, handle_additional_geometry), (226, handle_hyperlink)]

/-- `record_handlers.get(record_type)`. -/
def record_handlers (record_type : Int) : Option (Record → HandlerOut) :=
  (handlersList.find? (fun p => p.1 == record_type)).map (fun p => p.2)

/-- Warning conditions the driver logs while iterating records. -/
inductive Cond where
  | missingType
  | invalidType
  | unsupportedType (record_type : Int)
deriving DecidableEq, Repr

/-- Result of the driver loop: bytes written to the `FileHeader` stream,
conditions logged, and the uncaught handler exception that aborted the
loop, if any. -/
structure DriverOut where
  bytes : List Nat
  conds : List Cond
  aborted : Option PyErr
deriving DecidableEq, Repr

/-- The record loop of `create_fileheader_stream`: records missing a
`RECORD` key or whose `RECORD` value does not convert to `int` are
skipped with a logged condition, unregistered type codes are skipped with
an `unsupportedType` condition, and a handler exception propagates (there
is no try/except around the handler call), ending the loop with whatever
bytes were already written. -/
def create_fileheader_stream : List Record → DriverOut
  | [] => ⟨[], [], none⟩
  | record :: rest =>
    match record.find "RECORD" with
    | none =>
      let o := create_fileheader_stream rest
      ⟨o.bytes, .missingType :: o.conds, o.aborted⟩
    | some v =>
      match pyInt v with
      | .error _ =>
        let o := create_fileheader_stream rest
        ⟨o.bytes, .invalidType :: o.conds, o.aborted⟩
      | .ok record_type =>
        match record_handlers record_type with
        | none =>
          let o := create_fileheader_stream rest
          ⟨o.bytes, .unsupportedType record_type :: o.conds, o.aborted⟩
        | some handler =>
          let ho := handler record
          match ho.err with
          | some e => ⟨ho.bytes, [], some e⟩
          | none =>
            let o := create_fileheader_stream rest
            ⟨ho.bytes ++ o.bytes, o.conds, o.aborted⟩

/-- The pin record of the end-to-end example: type code 2 with
`OWNERINDEX`, `LOCATION.X`, `LOCATION.Y`, `ELECTRICAL` set and everything
else absent. -/
def pinExample : Record :=
  [("RECORD", .int 2), ("OWNERINDEX", .int 1), ("LOCATION.X", .int 10),
   ("LOCATION.Y", .int 20), ("ELECTRICAL", .int 0)]

/-- Expected encoding of `pinExample`. -/
def pinExampleBytes : List Nat :=
  strBytes ("|RECORD=2|OWNERINDEX=1|OWNERPARTID=-1|PINLENGTH=0|LOCATION.X=10" ++
    "|LOCATION.Y=20|ELECTRICAL=0|SYMBOL_OUTER=0|SYMBOL_OUTEREDGE=0|SYMBOL_INNEREDGE=0") ++ [10]

/-- A pin record that lacks the `OWNERINDEX` field. -/
def pinNoOwner : Record :=
  [("RECORD", .int 2), ("LOCATION.X", .int 10), ("LOCATION.Y", .int 20),
   ("ELECTRICAL", .int 0)]

/-- Encoding the code produces for `pinNoOwner`: the missing field is
filled with the default 0. -/
def pinNoOwnerBytes : List Nat :=
  strBytes ("|RECORD=2|OWNERINDEX=0|OWNERPARTID=-1|PINLENGTH=0|LOCATION.X=10" ++
    "|LOCATION.Y=20|ELECTRICAL=0|SYMBOL_OUTER=0|SYMBOL_OUTEREDGE=0|SYMBOL_INNEREDGE=0") ++ [10]

/-- A label record (type 4) whose `COLOR` value is non-numeric text. -/
def labelBadColor : Record :=
  [("RECORD", .int 4), ("OWNERINDEX", .int 1), ("INDEXINSHEET", .int 0),
   ("OWNERPARTID", .int 1), ("LOCATION.X", .int 1), ("LOCATION.Y", .int 1),
   ("COLOR", .str "abc")]

/-- A wire record with every field at its default. -/
def wireSimple : Record := [("RECORD", .int 27)]

/-- Encoding of `wireSimple`. -/
def wireSimpleBytes : List Nat :=
  strBytes "|RECORD=27|INDEXINSHEET=-1|OWNERPARTID=-1|LINEWIDTH=1|COLOR=0|LOCATIONCOUNT=0|UNIQUEID=" ++ [10]

/-- A bus record whose first coordinate is non-numeric, so the coordinate
loop fails after the header has been written. -/
def busPartial : Record :=
  [("RECORD", .int 26), ("LOCATIONCOUNT", .int 1), ("X0", .str "abc")]

/-- The bytes `handle_bus` has already written to the stream when the
conversion of `X0` fails. -/
def busPartialBytes : List Nat :=
  strBytes "|RECORD=26|INDEXINSHEET=-1|OWNERPARTID=-1|LINEWIDTH=1|COLOR=0|LOCATIONCOUNT=1"

/-- A bus record declaring one coordinate pair. -/
def busOnePair : Record :=
  [("RECORD", .int 26), ("LOCATIONCOUNT", .int 1), ("X0", .int 5), ("Y0", .int 7)]

/-- A parameter record carrying only the `%UTF8%TEXT` override. -/
def paramOverrideOnly : Record :=
  [("RECORD", .int 41), ("%UTF8%TEXT", .str "abc")]

/-- A record whose type code 999 has no registered handler. -/
def unsupportedRec : Record := [("RECORD", .int 999)]

/-- Packed (`struct.pack('<I', ...)`) field names of the designator
schema (record type 34). -/
def designatorPackedKeys : List String :=
  ["OWNERINDEX", "INDEXINSHEET", "OWNERPARTID", "LOCATION.X", "LOCATION.Y",
   "COLOR", "FONTID", "READONLYSTATE", "ORIENTATION"]

/-- Packed field names of the parameter schema (record type 41). -/
def parameterPackedKeys : List String :=
  ["INDEXINSHEET", "OWNERINDEX", "OWNERPARTID", "LOCATION.X", "LOCATION.Y",
   "ORIENTATION", "COLOR", "FONTID", "READONLYSTATE"]

/-! ### Helper lemmas -/

theorem strBytes_append (a b : String) :
    strBytes (a ++ b) = strBytes a ++ strBytes b := by
  simp [strBytes, String.data_append]

theorem seqE_cons (e : Except PyErr (List Nat)) (es : List (Except PyErr (List Nat))) :
    seqE (e :: es) =
      Except.bind e (fun a => Except.bind (seqE es) (fun as => .ok (a :: as))) := rfl

theorem seqE_ok_forall {segs : List (Except PyErr (List Nat))}
    {parts : List (List Nat)} (h : seqE segs = .ok parts) :
    ∀ s ∈ segs, ∃ a, s = .ok a := by
  induction segs generalizing parts with
  | nil => intro s hs; cases hs
  | cons e es ih =>
    intro s hs
    rw [seqE_cons] at h
    cases he : e with
    | error err => rw [he] at h; exact absurd h (by simp [Except.bind])
    | ok a =>
      rw [he] at h
      cases hes : seqE es with
      | error err => rw [hes] at h; exact absurd h (by simp [Except.bind])
      | ok as =>
        rw [hes] at h
        rcases List.mem_cons.mp hs with hs | hs
        · exact ⟨a, by rw [hs, he]⟩
        · exact ih hes s hs

theorem seqE_append {l1 l2 : List (Except PyErr (List Nat))}
    {parts : List (List Nat)} (h : seqE (l1 ++ l2) = .ok parts) :
    ∃ p1 p2, parts = p1 ++ p2 ∧ seqE l1 = .ok p1 ∧ seqE l2 = .ok p2 := by
  induction l1 generalizing parts with
  | nil => exact ⟨[], parts, rfl, rfl, h⟩
  | cons e es ih =>
    rw [List.cons_append, seqE_cons] at h
    cases he : e with
    | error err => rw [he] at h; exact absurd h (by simp [Except.bind])
    | ok a =>
      rw [he] at h
      cases hes : seqE (es ++ l2) with
      | error err => rw [hes] at h; exact absurd h (by simp [Except.bind])
      | ok as =>
        rw [hes] at h
        simp only [Except.bind, Except.ok.injEq] at h
        obtain ⟨p1, p2, hsplit, h1, h2⟩ := ih hes
        refine ⟨a :: p1, p2, ?_, ?_, h2⟩
        · rw [← h, hsplit, List.cons_append]
        · rw [seqE_cons, h1]; rfl

theorem runSegs_prefix (tag : String) (segs : List (Except PyErr (List Nat))) :
    (runSegs tag segs).bytes = [] ∨ strBytes tag <+: (runSegs tag segs).bytes := by
  unfold runSegs
  cases seqE segs with
  | ok parts => exact Or.inr (by simp)
  | error e => exact Or.inl rfl

theorem runSegs_err_none (tag : String) (segs : List (Except PyErr (List Nat)))
    (h : (runSegs tag segs).err = none) : ∃ parts, seqE segs = .ok parts := by
  unfold runSegs at h
  cases hs : seqE segs with
  | ok parts => exact ⟨parts, rfl⟩
  | error e => rw [hs] at h; cases h

theorem runSegs_bytes_of_ok (tag : String) (segs : List (Except PyErr (List Nat)))
    (parts : List (List Nat)) (h : seqE segs = .ok parts) :
    (runSegs tag segs).bytes = strBytes tag ++ parts.flatten ++ [10] := by
  unfold runSegs; rw [h]

theorem runSegs_err_of_error (tag : String) (segs : List (Except PyErr (List Nat)))
    (e : PyErr) (h : seqE segs = .error e) :
    runSegs tag segs = ⟨[], some e⟩ := by
  unfold runSegs; rw [h]

theorem append_if_present_extends {data d : List (List Nat)} {record : Record}
    {key : String} {fs : Bool} {tf : Option (Value → Except PyErr PyVal)}
    {pfx : String}
    (h : append_if_present data record key fs tf pfx = .ok d) :
    ∃ t, d = data ++ t := by
  unfold append_if_present at h
  split at h
  · cases h; exact ⟨[], by simp⟩
  · split at h
    · cases h
    · split at h
      · split at h
        · cases h
        · split at h
          · cases h
          · cases h; exact ⟨_, rfl⟩
      · split at h
        · cases h
        · cases h; exact ⟨_, rfl⟩

theorem aipChain_extends {record : Record} {steps : List AipStep}
    {data d : List (List Nat)} (h : aipChain record steps data = .ok d) :
    ∃ t, d = data ++ t := by
  induction steps generalizing data with
  | nil => cases h; exact ⟨[], by simp⟩
  | cons s ss ih =>
    simp only [aipChain, bind, Except.bind] at h
    cases ha : append_if_present data record s.key s.format_string s.transform s.pfx with
    | error err => rw [ha] at h; cases h
    | ok d1 =>
      rw [ha] at h
      obtain ⟨t1, ht1⟩ := append_if_present_extends ha
      obtain ⟨t2, ht2⟩ := ih h
      exact ⟨t1 ++ t2, by simp [ht2, ht1]⟩

theorem runAip_prefix (tag : String)
    (comp : List (List Nat) → Except PyErr (List (List Nat)))
    (hx : ∀ data d, comp data = .ok d → ∃ t, d = data ++ t) :
    (runAip tag comp).bytes = [] ∨ strBytes tag <+: (runAip tag comp).bytes := by
  unfold runAip
  cases hc : comp [strBytes tag] with
  | error e => exact Or.inl rfl
  | ok d =>
    obtain ⟨t, ht⟩ := hx _ _ hc
    refine Or.inr ?_
    subst ht
    simp

theorem polyline_comp_extends {record : Record} {data d : List (List Nat)}
    (h : polyline_comp record data = .ok d) : ∃ t, d = data ++ t := by
  unfold polyline_comp at h
  split at h
  · cases h
  · rename_i d1 h1
    split at h
    · cases h
    · obtain ⟨t1, ht1⟩ := aipChain_extends h1
      obtain ⟨t2, ht2⟩ := aipChain_extends h
      exact ⟨t1 ++ t2, by simp [ht2, ht1]⟩

theorem polygonCoordBlock_extends {record : Record} {countKey xKey yKey : String}
    {data d : List (List Nat)}
    (h : polygonCoordBlock record countKey xKey yKey data = .ok d) :
    ∃ t, d = data ++ t := by
  unfold polygonCoordBlock at h
  split at h
  · cases h; exact ⟨[], by simp⟩
  · split at h
    · cases h
    · exact aipChain_extends h

theorem handle_bus_tag (record : Record) :
    (handle_bus record).bytes = [] ∨
      strBytes "|RECORD=26" <+: (handle_bus record).bytes := by
  unfold handle_bus
  split
  · exact Or.inl rfl
  · split <;>
      (refine Or.inr ?_
       simp [busHeader, strBytes_append, List.append_assoc])

theorem handle_wire_tag (record : Record) :
    (handle_wire record).bytes = [] ∨
      strBytes "|RECORD=27" <+: (handle_wire record).bytes := by
  unfold handle_wire
  split
  · exact Or.inl rfl
  · split <;>
      (refine Or.inr ?_
       simp [wireHeader, strBytes_append, List.append_assoc])

theorem handle_sheet_name_tag (record : Record) (s : String)
    (hs : (record.find "RECORD").map pyStr = some s) :
    (handle_sheet_name_and_file_name record).bytes = [] ∨
      strBytes ("|RECORD=" ++ s) <+: (handle_sheet_name_and_file_name record).bytes := by
  obtain ⟨rt, hrt, hps⟩ := Option.map_eq_some'.mp hs
  unfold handle_sheet_name_and_file_name
  rw [show record.findE "RECORD" = .ok rt by simp [Record.findE, hrt]]
  split
  · rename_i e heq; cases heq
  · rename_i rt2 heq
    injection heq with h2
    subst h2
    split
    · rename_i rest heq2
      refine Or.inr ?_
      rw [hps]
      show strBytes ("|RECORD=" ++ s) <+: strBytes (("|RECORD=" ++ s) ++ rest) ++ [10]
      rw [show strBytes (("|RECORD=" ++ s) ++ rest) ++ [10]
          = strBytes ("|RECORD=" ++ s) ++ (strBytes rest ++ [10]) by
        rw [strBytes_append, List.append_assoc]]
      exact List.prefix_append _ _
    · exact Or.inl rfl

theorem record_handlers_mem {n : Int} {h : Record → HandlerOut}
    (hreg : record_handlers n = some h) : (n, h) ∈ handlersList := by
  unfold record_handlers at hreg
  obtain ⟨p, hfind, hp2⟩ := Option.map_eq_some'.mp hreg
  have hmem := List.mem_of_find?_eq_some hfind
  have hbeq := List.find?_some hfind
  have h1 : p.1 = n := by simpa using hbeq
  obtain ⟨p1, ph⟩ := p
  simp only at h1 hp2
  rw [← h1, ← hp2]
  exact hmem

theorem polygon_comp_extends {record : Record} {data d : List (List Nat)}
    (h : polygon_comp record data = .ok d) : ∃ t, d = data ++ t := by
  unfold polygon_comp at h
  split at h
  · cases h
  · rename_i d1 h1
    split at h
    · cases h
    · rename_i d2 h2
      obtain ⟨t1, ht1⟩ := aipChain_extends h1
      obtain ⟨t2, ht2⟩ := polygonCoordBlock_extends h2
      obtain ⟨t3, ht3⟩ := polygonCoordBlock_extends h
      exact ⟨t1 ++ (t2 ++ t3), by simp [ht3, ht2, ht1]⟩

/-! ### Driver step lemmas -/

theorem cfs_cons_missing (r : Record) (rest : List Record)
    (hf : r.find "RECORD" = none) :
    create_fileheader_stream (r :: rest) =
      ⟨(create_fileheader_stream rest).bytes,
       .missingType :: (create_fileheader_stream rest).conds,
       (create_fileheader_stream rest).aborted⟩ := by
  simp [create_fileheader_stream, hf]

theorem cfs_cons_invalid (r : Record) (rest : List Record) (v : Value) (e : PyErr)
    (hf : r.find "RECORD" = some v) (hi : pyInt v = .error e) :
    create_fileheader_stream (r :: rest) =
      ⟨(create_fileheader_stream rest).bytes,
       .invalidType :: (create_fileheader_stream rest).conds,
       (create_fileheader_stream rest).aborted⟩ := by
  simp [create_fileheader_stream, hf, hi]

theorem cfs_cons_unsupported (r : Record) (rest : List Record) (v : Value) (n : Int)
    (hf : r.find "RECORD" = some v) (hi : pyInt v = .ok n)
    (hr : record_handlers n = none) :
    create_fileheader_stream (r :: rest) =
      ⟨(create_fileheader_stream rest).bytes,
       .unsupportedType n :: (create_fileheader_stream rest).conds,
       (create_fileheader_stream rest).aborted⟩ := by
  simp [create_fileheader_stream, hf, hi, hr]

theorem cfs_cons_err (r : Record) (rest : List Record) (v : Value) (n : Int)
    (handler : Record → HandlerOut) (bs : List Nat) (e : PyErr)
    (hf : r.find "RECORD" = some v) (hi : pyInt v = .ok n)
    (hr : record_handlers n = some handler) (hh : handler r = ⟨bs, some e⟩) :
    create_fileheader_stream (r :: rest) = ⟨bs, [], some e⟩ := by
  simp [create_fileheader_stream, hf, hi, hr, hh]

theorem cfs_cons_ok (r : Record) (rest : List Record) (v : Value) (n : Int)
    (handler : Record → HandlerOut) (bs : List Nat)
    (hf : r.find "RECORD" = some v) (hi : pyInt v = .ok n)
    (hr : record_handlers n = some handler) (hh : handler r = ⟨bs, none⟩) :
    create_fileheader_stream (r :: rest) =
      ⟨bs ++ (create_fileheader_stream rest).bytes,
       (create_fileheader_stream rest).conds,
       (create_fileheader_stream rest).aborted⟩ := by
  simp [create_fileheader_stream, hf, hi, hr, hh]

theorem cfs_append (l1 l2 : List Record)
    (h : (create_fileheader_stream l1).aborted = none) :
    create_fileheader_stream (l1 ++ l2) =
      ⟨(create_fileheader_stream l1).bytes ++ (create_fileheader_stream l2).bytes,
       (create_fileheader_stream l1).conds ++ (create_fileheader_stream l2).conds,
       (create_fileheader_stream l2).aborted⟩ := by
  induction l1 with
  | nil => simp [create_fileheader_stream]
  | cons r l1 ih =>
    rw [List.cons_append]
    cases hf : r.find "RECORD" with
    | none =>
      rw [cfs_cons_missing r l1 hf] at h
      rw [cfs_cons_missing r (l1 ++ l2) hf, cfs_cons_missing r l1 hf, ih h]
      simp
    | some v =>
      cases hi : pyInt v with
      | error e =>
        rw [cfs_cons_invalid r l1 v e hf hi] at h
        rw [cfs_cons_invalid r (l1 ++ l2) v e hf hi, cfs_cons_invalid r l1 v e hf hi, ih h]
        simp
      | ok n =>
        cases hr : record_handlers n with
        | none =>
          rw [cfs_cons_unsupported r l1 v n hf hi hr] at h
          rw [cfs_cons_unsupported r (l1 ++ l2) v n hf hi hr,
            cfs_cons_unsupported r l1 v n hf hi hr, ih h]
          simp
        | some handler =>
          cases hh : handler r with
          | mk bs err =>
            cases err with
            | some e =>
              rw [cfs_cons_err r l1 v n handler bs e hf hi hr hh] at h
              cases h
            | none =>
              rw [cfs_cons_ok r l1 v n handler bs hf hi hr hh] at h
              rw [cfs_cons_ok r (l1 ++ l2) v n handler bs hf hi hr hh,
                cfs_cons_ok r l1 v n handler bs hf hi hr hh, ih h]
              simp

/-! ### Claim C1 -/

/-- C1, counterexample: the registered handler for type code 0
(`handle_header`) writes bytes that do not begin with `|RECORD=0` — they
begin with `|HEADER=` — so the claim fails as stated. -/
theorem C1_counterexample :
    record_handlers 0 = some handle_header ∧
    (handle_header ([] : Record)).bytes ≠ [] ∧
    ¬ (strBytes "|RECORD=0" <+: (handle_header ([] : Record)).bytes) ∧
    (strBytes "|HEADER=" <+: (handle_header ([] : Record)).bytes) :=
  ⟨rfl, by decide, by decide, by decide⟩

/-- C1, amended: for every registered type code other than 0 (whose
handler emits `|HEADER=` tokens instead), the handler either writes no
bytes at all — as the no-op handlers of types 215/216 always do, and as
an in-memory handler does when it raises — or writes bytes that begin
with `|RECORD=<type_code>`; the bus and wire handlers that raise
mid-record have still written that tagged header first, so their bytes
fall under the second disjunct.  For the shared handler of types 32/33
the token is built from the record's raw `RECORD` value, assumed here to
render as the decimal type code. -/
theorem C1_amended (n : Int) (h : Record → HandlerOut) (r : Record)
    (hreg : record_handlers n = some h) (h0 : n ≠ 0)
    (h3233 : n = 32 ∨ n = 33 → (r.find "RECORD").map pyStr = some (toString n)) :
    (h r).bytes = [] ∨ strBytes ("|RECORD=" ++ toString n) <+: (h r).bytes := by
  have hmem := record_handlers_mem hreg
  simp only [handlersList, List.mem_cons, List.not_mem_nil, or_false,
    Prod.mk.injEq] at hmem
  rcases hmem with ⟨hn0, hh0⟩ | hmem
  · exact absurd hn0 h0
  rcases hmem with ⟨hn1, hh1⟩ | hmem
  · subst hn1 hh1
    exact runSegs_prefix _ _
  rcases hmem with ⟨hn2, hh2⟩ | hmem
  · subst hn2 hh2
    exact runSegs_prefix _ _
  rcases hmem with ⟨hn3, hh3⟩ | hmem
  · subst hn3 hh3
    exact runSegs_prefix _ _
  rcases hmem with ⟨hn4, hh4⟩ | hmem
  · subst hn4 hh4
    exact runSegs_prefix _ _
  rcases hmem with ⟨hn5, hh5⟩ | hmem
  · subst hn5 hh5
    exact runSegs_prefix _ _
  rcases hmem with ⟨hn6, hh6⟩ | hmem
  · subst hn6 hh6
    exact runAip_prefix _ _ (fun _ _ hhx => polyline_comp_extends hhx)
  rcases hmem with ⟨hn7, hh7⟩ | hmem
  · subst hn7 hh7
    exact runAip_prefix _ _ (fun _ _ hhx => polygon_comp_extends hhx)
  rcases hmem with ⟨hn8, hh8⟩ | hmem
  · subst hn8 hh8
    exact runAip_prefix _ _ (fun _ _ hhx => aipChain_extends hhx)
  rcases hmem with ⟨hn9, hh9⟩ | hmem
  · subst hn9 hh9
    exact runSegs_prefix _ _
  rcases hmem with ⟨hn10, hh10⟩ | hmem
  · subst hn10 hh10
    exact runSegs_prefix _ _
  rcases hmem with ⟨hn11, hh11⟩ | hmem
  · subst hn11 hh11
    exact runSegs_prefix _ _
  rcases hmem with ⟨hn12, hh12⟩ | hmem
  · subst hn12 hh12
    exact runAip_prefix _ _ (fun _ _ hhx => aipChain_extends hhx)
  rcases hmem with ⟨hn13, hh13⟩ | hmem
  · subst hn13 hh13
    exact runAip_prefix _ _ (fun _ _ hhx => aipChain_extends hhx)
  rcases hmem with ⟨hn14, hh14⟩ | hmem
  · subst hn14 hh14
    exact runSegs_prefix _ _
  rcases hmem with ⟨hn15, hh15⟩ | hmem
  · subst hn15 hh15
    exact runSegs_prefix _ _
  rcases hmem with ⟨hn16, hh16⟩ | hmem
  · subst hn16 hh16
    exact runSegs_prefix _ _
  rcases hmem with ⟨hn17, hh17⟩ | hmem
  · subst hn17 hh17
    exact runAip_prefix _ _ (fun _ _ hhx => aipChain_extends hhx)
  rcases hmem with ⟨hn18, hh18⟩ | hmem
  · subst hn18 hh18
    exact runAip_prefix _ _ (fun _ _ hhx => aipChain_extends hhx)
  rcases hmem with ⟨hn22, hh22⟩ | hmem
  · subst hn22 hh22
    exact runAip_prefix _ _ (fun _ _ hhx => aipChain_extends hhx)
  rcases hmem with ⟨hn25, hh25⟩ | hmem
  · subst hn25 hh25
    exact runAip_prefix _ _ (fun _ _ hhx => aipChain_extends hhx)
  rcases hmem with ⟨hn26, hh26⟩ | hmem
  · subst hn26 hh26
    exact handle_bus_tag r
  rcases hmem with ⟨hn27, hh27⟩ | hmem
  · subst hn27 hh27
    exact handle_wire_tag r
  rcases hmem with ⟨hn28, hh28⟩ | hmem
  · subst hn28 hh28
    exact runSegs_prefix _ _
  rcases hmem with ⟨hn29, hh29⟩ | hmem
  · subst hn29 hh29
    exact runAip_prefix _ _ (fun _ _ hhx => aipChain_extends hhx)
  rcases hmem with ⟨hn30, hh30⟩ | hmem
  · subst hn30 hh30
    exact runSegs_prefix _ _
  rcases hmem with ⟨hn31, hh31⟩ | hmem
  · subst hn31 hh31
    exact runSegs_prefix _ _
  rcases hmem with ⟨hn32, hh32⟩ | hmem
  · subst hn32 hh32
    exact handle_sheet_name_tag r _ (h3233 (Or.inl rfl))
  rcases hmem with ⟨hn33, hh33⟩ | hmem
  · subst hn33 hh33
    exact handle_sheet_name_tag r _ (h3233 (Or.inr rfl))
  rcases hmem with ⟨hn34, hh34⟩ | hmem
  · subst hn34 hh34
    exact runSegs_prefix _ _
  rcases hmem with ⟨hn37, hh37⟩ | hmem
  · subst hn37 hh37
    exact runSegs_prefix _ _
  rcases hmem with ⟨hn39, hh39⟩ | hmem
  · subst hn39 hh39
    exact runSegs_prefix _ _
  rcases hmem with ⟨hn41, hh41⟩ | hmem
  · subst hn41 hh41
    exact runSegs_prefix _ _
  rcases hmem with ⟨hn43, hh43⟩ | hmem
  · subst hn43 hh43
    exact runAip_prefix _ _ (fun _ _ hhx => aipChain_extends hhx)
  rcases hmem with ⟨hn44, hh44⟩ | hmem
  · subst hn44 hh44
    exact runSegs_prefix _ _
  rcases hmem with ⟨hn45, hh45⟩ | hmem
  · subst hn45 hh45
    exact runSegs_prefix _ _
  rcases hmem with ⟨hn46, hh46⟩ | hmem
  · subst hn46 hh46
    exact runSegs_prefix _ _
  rcases hmem with ⟨hn47, hh47⟩ | hmem
  · subst hn47 hh47
    exact runSegs_prefix _ _
  rcases hmem with ⟨hn48, hh48⟩ | hmem
  · subst hn48 hh48
    exact runSegs_prefix _ _
  rcases hmem with ⟨hn215, hh215⟩ | hmem
  · subst hn215 hh215
    exact Or.inl rfl
  rcases hmem with ⟨hn216, hh216⟩ | hmem
  · subst hn216 hh216
    exact Or.inl rfl
  rcases hmem with ⟨hn217, hh217⟩ | hmem
  · subst hn217 hh217
    exact runSegs_prefix _ _
  rcases hmem with ⟨hn218, hh218⟩ | hmem
  · subst hn218 hh218
    exact runSegs_prefix _ _
  obtain ⟨hn226, hh226⟩ := hmem
  subst hn226 hh226
  exact runSegs_prefix _ _

/-- C1, witness for the amended theorem at type code 2 on the empty
record. -/
theorem C1_amended_witness :
    record_handlers 2 = some handle_pin ∧ (2 : Int) ≠ 0 ∧
    ((handle_pin ([] : Record)).bytes = [] ∨
      strBytes ("|RECORD=" ++ toString (2 : Int)) <+: (handle_pin ([] : Record)).bytes) :=
  ⟨rfl, by decide,
   C1_amended 2 handle_pin [] rfl (by decide) (fun hc => absurd hc (by decide))⟩

/-! ### Claim C2 -/

/-- C2: the record `{RECORD=2, OWNERINDEX=1, LOCATION.X=10, LOCATION.Y=20,
ELECTRICAL=0}` with every other field absent encodes to exactly
`|RECORD=2|OWNERINDEX=1|OWNERPARTID=-1|PINLENGTH=0|LOCATION.X=10`
`|LOCATION.Y=20|ELECTRICAL=0|SYMBOL_OUTER=0|SYMBOL_OUTEREDGE=0`
`|SYMBOL_INNEREDGE=0` followed by the newline record separator, with no
conditions and no abort. -/
theorem C2_pin_example :
    create_fileheader_stream [pinExample] = ⟨pinExampleBytes, [], none⟩ := by
  decide

/-! ### Claim C3 -/

/-- C3, counterexample: a pin record missing `OWNERINDEX` is NOT dropped
and no condition is reported — `handle_pin` reads the field with
`record.get('OWNERINDEX', 0)`, so the record encodes with `OWNERINDEX=0`
and contributes those bytes to the output. -/
theorem C3_counterexample :
    (create_fileheader_stream [pinNoOwner]).bytes = pinNoOwnerBytes ∧
    (create_fileheader_stream [pinNoOwner]).bytes ≠ [] ∧
    (create_fileheader_stream [pinNoOwner]).conds = [] ∧
    (create_fileheader_stream [pinNoOwner]).aborted = none ∧
    (strBytes "|OWNERINDEX=0" <:+: (create_fileheader_stream [pinNoOwner]).bytes) := by
  refine ⟨by decide, by decide, by decide, by decide, by decide⟩

/-- C3, amended: a pin record lacking `OWNERINDEX` is not dropped and no
condition is reported: it encodes with the schema default `OWNERINDEX=0`,
and every subsequent record is processed exactly as it would be on its
own, in its original relative order. -/
theorem C3_amended (rest : List Record) :
    create_fileheader_stream (pinNoOwner :: rest) =
      ⟨pinNoOwnerBytes ++ (create_fileheader_stream rest).bytes,
       (create_fileheader_stream rest).conds,
       (create_fileheader_stream rest).aborted⟩ :=
  cfs_cons_ok pinNoOwner rest (.int 2) 2 handle_pin pinNoOwnerBytes rfl rfl rfl (by decide)

/-! ### Claim C4 -/

/-- C4, counterexample: a label record whose `COLOR` holds non-numeric
text makes `int()` raise an uncaught `ValueError`: the whole document
encode aborts — no condition is recorded and the following valid wire
record (which encodes fine on its own) is never processed. -/
theorem C4_counterexample :
    create_fileheader_stream [labelBadColor, wireSimple] = ⟨[], [], some .valueError⟩ ∧
    (create_fileheader_stream [wireSimple]).bytes = wireSimpleBytes ∧
    wireSimpleBytes ≠ [] := by
  refine ⟨by decide, by decide, by decide⟩

/-- C4, amended: a field value that cannot be converted to its declared
kind raises an uncaught conversion error in the handler, aborting the
whole document encode at that record with no condition recorded
(regardless of what follows); only a record whose `RECORD` type-code
value itself fails `int()` conversion is skipped with a condition while
processing continues. -/
theorem C4_amended :
    (∀ rest : List Record,
      create_fileheader_stream (labelBadColor :: rest) = ⟨[], [], some .valueError⟩) ∧
    (∀ rest : List Record,
      create_fileheader_stream ([("RECORD", Value.str "abc")] :: rest) =
        ⟨(create_fileheader_stream rest).bytes,
         .invalidType :: (create_fileheader_stream rest).conds,
         (create_fileheader_stream rest).aborted⟩) :=
  ⟨fun rest =>
    cfs_cons_err labelBadColor rest (.int 4) 4 handle_label [] .valueError
      rfl rfl rfl (by decide),
   fun rest =>
    cfs_cons_invalid [("RECORD", Value.str "abc")] rest (.str "abc") .valueError
      rfl rfl⟩

/-! ### Claim C5 -/

/-- C5, counterexample: `handle_bus` writes its header to the stream
before converting the coordinate pairs, so when the conversion of `X0`
fails the header bytes of the failed record are already in the output —
a partial record prefix IS written, refuting the claim. -/
theorem C5_counterexample :
    (handle_bus busPartial).bytes = busPartialBytes ∧
    busPartialBytes ≠ [] ∧
    (handle_bus busPartial).err = some .valueError := by
  refine ⟨by decide, by decide, by decide⟩

/-- C5, amended: when a bus record fails partway through its coordinate
loop, the header bytes already written for that record remain in the
document output and the failure aborts the encode (no further records
processed); handlers that build their record in memory, such as the
label handler, do contribute no bytes on failure. -/
theorem C5_amended :
    (∀ rest : List Record,
      create_fileheader_stream (busPartial :: rest) =
        ⟨busPartialBytes, [], some .valueError⟩) ∧
    handle_label labelBadColor = ⟨[], some .valueError⟩ :=
  ⟨fun rest =>
    cfs_cons_err busPartial rest (.int 26) 26 handle_bus busPartialBytes .valueError
      rfl rfl rfl (by decide),
   by decide⟩

/-! ### Claim C6 -/

theorem coordPairWrites_ok (record : Record) (x y : Nat → Int)
    (hx : ∀ i, pyIntKeyD record ("X" ++ toString i) (.int 0) = .ok (x i))
    (hy : ∀ i, pyIntKeyD record ("Y" ++ toString i) (.int 0) = .ok (y i)) :
    ∀ (fuel start : Nat),
    coordPairWrites record start fuel =
      (((List.range fuel).map (fun k =>
        strBytes ("|X" ++ toString (start + k) ++ "=" ++ toString (x (start + k)) ++
          "|Y" ++ toString (start + k) ++ "=" ++ toString (y (start + k))))).flatten,
       none) := by
  intro fuel
  induction fuel with
  | zero => intro start; simp [coordPairWrites]
  | succ f ih =>
    intro start
    cases hcp : coordPairWrites record (start + 1) f with
    | mk rest e =>
      have hstep : coordPairWrites record start (f + 1) =
          (strBytes ("|X" ++ toString start ++ "=" ++ toString (x start) ++
            "|Y" ++ toString start ++ "=" ++ toString (y start)) ++ rest, e) := by
        simp only [coordPairWrites, hx start, hy start, hcp]
      have hrec := ih (start + 1)
      rw [hcp] at hrec
      have h1 : rest = ((List.range f).map (fun k =>
          strBytes ("|X" ++ toString (start + 1 + k) ++ "=" ++
            toString (x (start + 1 + k)) ++
            "|Y" ++ toString (start + 1 + k) ++ "=" ++
            toString (y (start + 1 + k))))).flatten :=
        congrArg Prod.fst hrec
      have h2 : e = none := congrArg Prod.snd hrec
      rw [hstep, h1, h2, List.range_succ_eq_map]
      have harith : ∀ k : Nat, start + 1 + k = start + (k + 1) := by omega
      simp [List.map_map, Function.comp_def, harith]

/-- C6, counterexample: a bus record with `LOCATIONCOUNT=1` emits its
single coordinate pair at index 0 (`|X0=..|Y0=..`), not at index 1 as
the claim states. -/
theorem C6_counterexample :
    (handle_bus busOnePair).bytes =
      strBytes ("|RECORD=26|INDEXINSHEET=-1|OWNERPARTID=-1|LINEWIDTH=1|COLOR=0" ++
        "|LOCATIONCOUNT=1|X0=5|Y0=7") ++ [10] ∧
    ¬ (strBytes "|X1=" <:+: (handle_bus busOnePair).bytes) ∧
    (strBytes "|X0=" <:+: (handle_bus busOnePair).bytes) := by
  refine ⟨by decide, by decide, by decide⟩

/-- C6, amended: for bus records, when the header fields and every
coordinate convert to integers, `LOCATIONCOUNT=N` emits exactly N
`(X_i, Y_i)` pairs with indices running 0..N-1 in ascending order with
no gaps (so `LOCATIONCOUNT=0` emits zero pairs), each absent coordinate
defaulting to 0; wire records behave identically. -/
theorem C6_amended (record : Record) (a b c d N : Int) (x y : Nat → Int)
    (ha : pyIntKeyD record "INDEXINSHEET" (.int (-1)) = .ok a)
    (hb : pyIntKeyD record "OWNERPARTID" (.int (-1)) = .ok b)
    (hc : pyIntKeyD record "LINEWIDTH" (.int 1) = .ok c)
    (hd : pyIntKeyD record "COLOR" (.int 0) = .ok d)
    (hn : pyIntKeyD record "LOCATIONCOUNT" (.int 0) = .ok N)
    (hx : ∀ i, pyIntKeyD record ("X" ++ toString i) (.int 0) = .ok (x i))
    (hy : ∀ i, pyIntKeyD record ("Y" ++ toString i) (.int 0) = .ok (y i)) :
    ((handle_bus record).err = none ∧
      (handle_bus record).bytes =
        strBytes (busHeader a b c d N) ++
        ((List.range N.toNat).map (fun i =>
          strBytes ("|X" ++ toString i ++ "=" ++ toString (x i) ++
            "|Y" ++ toString i ++ "=" ++ toString (y i)))).flatten ++ [10]) ∧
    ((handle_wire record).err = none ∧
      (handle_wire record).bytes =
        strBytes (wireHeader a b c d N (pyStr (record.getD "UNIQUEID" (.str "")))) ++
        ((List.range N.toNat).map (fun i =>
          strBytes ("|X" ++ toString i ++ "=" ++ toString (x i) ++
            "|Y" ++ toString i ++ "=" ++ toString (y i)))).flatten ++ [10]) := by
  have hpairs := coordPairWrites_ok record x y hx hy N.toNat 0
  simp only [Nat.zero_add] at hpairs
  constructor
  · unfold handle_bus
    rw [ha, hb, hc, hd, hn]
    simp only [bind, Except.bind]
    rw [hpairs]
    exact ⟨rfl, rfl⟩
  · unfold handle_wire
    rw [ha, hb, hc, hd, hn]
    simp only [bind, Except.bind]
    rw [hpairs]
    exact ⟨rfl, rfl⟩

/-- C6, witness for the amended theorem: the empty bus/wire record, whose
`LOCATIONCOUNT` defaults to 0 and emits zero coordinate pairs. -/
theorem C6_amended_witness :
    pyIntKeyD ([] : Record) "LOCATIONCOUNT" (.int 0) = .ok 0 ∧
    ((handle_bus ([] : Record)).err = none ∧
      (handle_bus ([] : Record)).bytes =
        strBytes (busHeader (-1) (-1) 1 0 0) ++
        ((List.range (Int.toNat 0)).map (fun i =>
          strBytes ("|X" ++ toString i ++ "=" ++ toString ((0 : Int)) ++
            "|Y" ++ toString i ++ "=" ++ toString ((0 : Int))))).flatten ++ [10]) :=
  ⟨rfl,
   ((C6_amended [] (-1) (-1) 1 0 0 (fun _ => 0) (fun _ => 0)
      rfl rfl rfl rfl rfl (fun _ => rfl) (fun _ => rfl)).1)⟩

/-! ### Claim C7 -/

/-- C7, counterexample: a parameter record carrying only the `%UTF8%TEXT`
override encodes successfully to `|RECORD=41|UTF8%TEXT=abc` — one token
for the logical field, with no canonical `|TEXT=` token before it and no
`%UTF8%`-prefixed token at all (the source writes `b"|UTF8%TEXT="`,
dropping the `%`). -/
theorem C7_counterexample :
    (handle_parameter paramOverrideOnly).bytes =
      strBytes "|RECORD=41|UTF8%TEXT=abc" ++ [10] ∧
    (handle_parameter paramOverrideOnly).err = none ∧
    ¬ (strBytes "|%UTF8%TEXT=" <:+: (handle_parameter paramOverrideOnly).bytes) ∧
    ¬ (strBytes "|TEXT=" <:+: (handle_parameter paramOverrideOnly).bytes) := by
  refine ⟨by decide, by decide, by decide, by decide⟩

/-- C7, amended: for parameter records, when the `%UTF8%TEXT` override
value is present as a string and the record encodes successfully, the
output contains a single override token whose emitted prefix is
`|UTF8%TEXT=` (missing the leading `%` of the input key), placed at its
schema position after the canonical `TEXT`/`NAME` segments and emitted
regardless of whether the canonical `TEXT` field is present. -/
theorem C7_amended (record : Record) (s : String)
    (hpresent : record.find "%UTF8%TEXT" = some (.str s))
    (hok : (handle_parameter record).err = none) :
    strBytes "|UTF8%TEXT=" ++ strBytes s <:+: (handle_parameter record).bytes := by
  obtain ⟨parts, hparts⟩ := runSegs_err_none "|RECORD=41" (parameter_segs record) hok
  have hsplit : parameter_segs record =
      [packedSeg record "INDEXINSHEET", packedSeg record "OWNERINDEX",
       packedSeg record "OWNERPARTID", packedSeg record "LOCATION.X",
       packedSeg record "LOCATION.Y", packedSeg record "ORIENTATION",
       packedSeg record "COLOR", packedSeg record "FONTID",
       tfSegT record "ISHIDDEN", utf8DirectSeg record "TEXT" "TEXT",
       utf8DirectSeg record "NAME" "NAME"] ++
      utf8DirectSeg record "%UTF8%TEXT" "UTF8%TEXT" ::
      [utf8DirectSeg record "%UTF8%NAME" "UTF8%NAME",
       packedSeg record "READONLYSTATE", utf8DirectSeg record "UNIQUEID" "UNIQUEID",
       tfSegT record "ISMIRRORED", tfSegT record "NOTAUTOPOSITION",
       tfSegT record "SHOWNAME"] := rfl
  rw [hsplit] at hparts
  obtain ⟨p1, p2, hps, hseq1, hseq2⟩ := seqE_append hparts
  have hseg : utf8DirectSeg record "%UTF8%TEXT" "UTF8%TEXT" =
      .ok (strBytes "|UTF8%TEXT=" ++ strBytes s) := by
    unfold utf8DirectSeg
    rw [hpresent]
    rfl
  rw [seqE_cons, hseg] at hseq2
  cases hsuf : seqE [utf8DirectSeg record "%UTF8%NAME" "UTF8%NAME",
       packedSeg record "READONLYSTATE", utf8DirectSeg record "UNIQUEID" "UNIQUEID",
       tfSegT record "ISMIRRORED", tfSegT record "NOTAUTOPOSITION",
       tfSegT record "SHOWNAME"] with
  | error e =>
    rw [hsuf] at hseq2
    exact absurd hseq2 (by simp [Except.bind])
  | ok ps =>
    rw [hsuf] at hseq2
    simp only [Except.bind, Except.ok.injEq] at hseq2
    have hbytes := runSegs_bytes_of_ok "|RECORD=41" (parameter_segs record) parts (by
      rw [hsplit]; exact hparts)
    show strBytes "|UTF8%TEXT=" ++ strBytes s <:+:
      (runSegs "|RECORD=41" (parameter_segs record)).bytes
    rw [hbytes, hps, ← hseq2]
    refine ⟨strBytes "|RECORD=41" ++ p1.flatten, ps.flatten ++ [10], ?_⟩
    simp [List.flatten_append, List.append_assoc]

/-- C7, witness for the amended theorem at the override-only parameter
record. -/
theorem C7_amended_witness :
    paramOverrideOnly.find "%UTF8%TEXT" = some (.str "abc") ∧
    (handle_parameter paramOverrideOnly).err = none ∧
    strBytes "|UTF8%TEXT=" ++ strBytes "abc" <:+:
      (handle_parameter paramOverrideOnly).bytes :=
  ⟨rfl, rfl, C7_amended paramOverrideOnly "abc" rfl rfl⟩

/-! ### Claim C8 -/

/-- C8: a record whose type code has no registered handler contributes
zero bytes wherever it sits in the document, exactly one
`unsupportedType` condition is logged at its position, and both the
records before it and after it encode byte-identically to the document
without it (provided the records before it do not abort). -/
theorem C8_unsupported (n : Int) (v : Value) (record : Record)
    (pre post : List Record)
    (hfind : record.find "RECORD" = some v) (hint : pyInt v = .ok n)
    (hreg : record_handlers n = none)
    (hpre : (create_fileheader_stream pre).aborted = none) :
    (create_fileheader_stream (pre ++ record :: post)).bytes =
      (create_fileheader_stream (pre ++ post)).bytes ∧
    (create_fileheader_stream (pre ++ record :: post)).conds =
      (create_fileheader_stream pre).conds ++
        .unsupportedType n :: (create_fileheader_stream post).conds ∧
    (create_fileheader_stream (pre ++ record :: post)).aborted =
      (create_fileheader_stream post).aborted := by
  have hstep := cfs_cons_unsupported record post v n hfind hint hreg
  have h1 := cfs_append pre (record :: post) hpre
  have h2 := cfs_append pre post hpre
  rw [h1, h2, hstep]
  simp

/-- C8, witness at type code 999 in a singleton document. -/
theorem C8_witness :
    unsupportedRec.find "RECORD" = some (.int 999) ∧
    pyInt (.int 999) = .ok 999 ∧
    record_handlers 999 = none ∧
    (create_fileheader_stream (([] : List Record) ++ unsupportedRec :: [])).conds =
      (create_fileheader_stream ([] : List Record)).conds ++
        .unsupportedType 999 :: (create_fileheader_stream ([] : List Record)).conds :=
  ⟨rfl, rfl, rfl,
   (C8_unsupported 999 (.int 999) unsupportedRec [] [] rfl rfl rfl rfl).2.1⟩

/-! ### Claim C9 -/

/-- C9: for every document whose encode does not abort, the output bytes
are exactly the concatenation, in input order, of the bytes each record
produces when encoded on its own — input order survives into output
order, regardless of which records are skipped. -/
theorem C9_order (doc : List Record)
    (h : (create_fileheader_stream doc).aborted = none) :
    (create_fileheader_stream doc).bytes =
      (doc.map (fun r => (create_fileheader_stream [r]).bytes)).flatten := by
  have hnil : create_fileheader_stream [] = ⟨[], [], none⟩ := rfl
  induction doc with
  | nil => rfl
  | cons r rest ih =>
    cases hf : r.find "RECORD" with
    | none =>
      rw [cfs_cons_missing r rest hf] at h
      rw [cfs_cons_missing r rest hf]
      simp [cfs_cons_missing r [] hf, hnil, ih h]
    | some v =>
      cases hi : pyInt v with
      | error e =>
        rw [cfs_cons_invalid r rest v e hf hi] at h
        rw [cfs_cons_invalid r rest v e hf hi]
        simp [cfs_cons_invalid r [] v e hf hi, hnil, ih h]
      | ok n =>
        cases hr : record_handlers n with
        | none =>
          rw [cfs_cons_unsupported r rest v n hf hi hr] at h
          rw [cfs_cons_unsupported r rest v n hf hi hr]
          simp [cfs_cons_unsupported r [] v n hf hi hr, hnil, ih h]
        | some handler =>
          cases hh : handler r with
          | mk bs err =>
            cases err with
            | some e =>
              rw [cfs_cons_err r rest v n handler bs e hf hi hr hh] at h
              cases h
            | none =>
              rw [cfs_cons_ok r rest v n handler bs hf hi hr hh] at h
              rw [cfs_cons_ok r rest v n handler bs hf hi hr hh]
              simp [cfs_cons_ok r [] v n handler bs hf hi hr hh, hnil, ih h]

/-- C9, witness on a two-record document. -/
theorem C9_witness :
    (create_fileheader_stream [pinExample, wireSimple]).aborted = none ∧
    (create_fileheader_stream [pinExample, wireSimple]).bytes =
      ([pinExample, wireSimple].map
        (fun r => (create_fileheader_stream [r]).bytes)).flatten :=
  ⟨by decide, C9_order [pinExample, wireSimple] (by decide)⟩

/-! ### Claim C10 -/

theorem packU32_ok_iff (n : Int) :
    (∃ bs, packU32 n = .ok bs) ↔ 0 ≤ n ∧ n < 4294967296 := by
  unfold packU32
  split
  · rename_i hcond
    exact ⟨fun _ => hcond, fun _ => ⟨_, rfl⟩⟩
  · rename_i hcond
    constructor
    · rintro ⟨bs, hbs⟩; cases hbs
    · intro hc; exact absurd hc hcond

theorem packedSeg_neg (record : Record) (k : String) (v : Int)
    (hfind : record.find k = some (.int v)) (hneg : v < 0) :
    packedSeg record k = .error .structError := by
  have hp : packU32 v = .error .structError := by
    unfold packU32
    rw [if_neg (by omega)]
  unfold packedSeg
  rw [hfind]
  simp [pyInt, hp, bind, Except.bind]

theorem runSegs_of_mem_error (tag : String) (segs : List (Except PyErr (List Nat)))
    (s : Except PyErr (List Nat)) (e : PyErr) (hmem : s ∈ segs)
    (hserr : s = .error e) :
    (runSegs tag segs).bytes = [] ∧ (runSegs tag segs).err.isSome = true := by
  cases hs : seqE segs with
  | ok parts =>
    obtain ⟨a, ha⟩ := seqE_ok_forall hs s hmem
    rw [hserr] at ha
    cases ha
  | error e2 =>
    unfold runSegs
    rw [hs]
    exact ⟨rfl, rfl⟩

/-- C10: `struct.pack('<I', n)` succeeds exactly for 0 ≤ n < 2^32, and
for designator (34) and parameter (41) records, a packed field present
with a negative integer value (such as `OWNERPARTID=-1`) makes the
record encoding fail: the handler raises and writes no bytes. -/
theorem C10_packed_range :
    (∀ n : Int, (∃ bs, packU32 n = .ok bs) ↔ 0 ≤ n ∧ n < 4294967296) ∧
    (∀ (record : Record) (k : String) (v : Int), k ∈ designatorPackedKeys →
      record.find k = some (.int v) → v < 0 →
      (handle_designator record).bytes = [] ∧
        (handle_designator record).err.isSome = true) ∧
    (∀ (record : Record) (k : String) (v : Int), k ∈ parameterPackedKeys →
      record.find k = some (.int v) → v < 0 →
      (handle_parameter record).bytes = [] ∧
        (handle_parameter record).err.isSome = true) := by
  refine ⟨packU32_ok_iff, ?_, ?_⟩
  · intro record k v hk hfind hneg
    have hseg := packedSeg_neg record k v hfind hneg
    have hmem : packedSeg record k ∈ designator_segs record := by
      fin_cases hk <;> simp [designator_segs]
    exact runSegs_of_mem_error "|RECORD=34" (designator_segs record) _ _ hmem hseg
  · intro record k v hk hfind hneg
    have hseg := packedSeg_neg record k v hfind hneg
    have hmem : packedSeg record k ∈ parameter_segs record := by
      fin_cases hk <;> simp [parameter_segs]
    exact runSegs_of_mem_error "|RECORD=41" (parameter_segs record) _ _ hmem hseg

/-- C10, witness: a designator record with `OWNERPARTID=-1` cannot
complete encoding. -/
theorem C10_witness :
    ("OWNERPARTID" ∈ designatorPackedKeys) ∧
    (Record.find [("OWNERPARTID", Value.int (-1))] "OWNERPARTID" =
      some (.int (-1))) ∧
    ((-1 : Int) < 0) ∧
    ((handle_designator [("OWNERPARTID", Value.int (-1))]).bytes = [] ∧
      (handle_designator [("OWNERPARTID", Value.int (-1))]).err.isSome = true) :=
  ⟨by decide, rfl, by decide,
   C10_packed_range.2.1 [("OWNERPARTID", Value.int (-1))] "OWNERPARTID" (-1)
     (by decide) rfl (by decide)⟩

end SchDoc
